import Mathlib

/-!
# Verification of the vpulse-editor port-schema and type-propagation engine

Shallow embedding of the port-schema builder, the type propagator
(`update_polymorphic_output_types`), the polymorphic-dependence check
(`has_polymorhpic_dependent_return`), the library-binding port rebuilder
(`update_library_binding_params`), the in-place retype dispatcher
(`update_node_inputs_outputs_types`) and the schema migrator
(`FullGraphState::verify_compat`) from `src/app.rs`, together with the data
model from `src/app/types.rs` and `src/bindings.rs`.

The repository's `typing`, `utils` and `compiler` modules, and the
`egui_node_graph2` graph-store crate the editor builds on, are not part of
the available sources; the definitions standing in for them are modelled
from the specification and are marked `Modelled from the spec:` in their
doc comments.
-/

namespace VPulse

/-- A 32-bit float payload, represented by its bit pattern.  The engine
never computes with float payloads; they only ride along inside values. -/
structure F32 where
  bits : Nat
deriving DecidableEq, Repr

/-- Three-component float vector payload (source `Vec3`). -/
structure Vec3f where
  x : F32
  y : F32
  z : F32
deriving DecidableEq, Repr

/-- Two-component float vector payload (source `Vec2`). -/
structure Vec2f where
  x : F32
  y : F32
deriving DecidableEq, Repr

/-- Four-component float vector payload (source `Vec4`). -/
structure Vec4f where
  x : F32
  y : F32
  z : F32
  w : F32
deriving DecidableEq, Repr

/-- Modelled from the spec: the concrete value type of `crate::typing`
(`PulseValueType`), the closed, possibly-recursive tagged union of §3.
The `typing` module is missing from the sources; the variants and their
payloads are taken from every use visible in `src/app.rs`,
`src/app/types.rs` and `src/bindings.rs` (`PVAL_INT`, `PVAL_FLOAT`,
`PVAL_STRING`, `PVAL_BOOL_VALUE`, vectors, `PVAL_EHANDLE`,
`PVAL_SNDEVT_GUID`, `PVAL_RESOURCE`, `PVAL_GAMETIME`, transforms,
`DOMAIN_ENTITY_NAME`, and the recursive `PVAL_ARRAY`). -/
inductive PulseValueType where
  | PVAL_INT (v : Option Int)
  | PVAL_FLOAT (v : Option F32)
  | PVAL_STRING (v : Option String)
  | PVAL_BOOL_VALUE (v : Option Bool)
  | PVAL_VEC2 (v : Option Vec2f)
  | PVAL_VEC3 (v : Option Vec3f)
  | PVAL_VEC3_LOCAL (v : Option Vec3f)
  | PVAL_VEC4 (v : Option Vec4f)
  | PVAL_QANGLE (v : Option Vec3f)
  | PVAL_COLOR_RGB (v : Option Vec3f)
  | PVAL_EHANDLE (v : Option String)
  | PVAL_SNDEVT_GUID (v : Option Nat)
  | PVAL_RESOURCE (resource_type : Option String) (v : Option String)
  | PVAL_GAMETIME (v : Option F32)
  | PVAL_TRANSFORM (v : Option Unit)
  | PVAL_TRANSFORM_WORLDSPACE (v : Option Unit)
  | DOMAIN_ENTITY_NAME
  | PVAL_ARRAY (inner : PulseValueType)
deriving DecidableEq, Repr

/-- The coarse port category (`PulseDataType`, `src/app/types.rs`). -/
inductive PulseDataType where
  | Scalar
  | Vec2
  | Vec3
  | Vec3Local
  | Color
  | String
  | Bool
  | Action
  | EHandle
  | SndEventHandle
  | EntityName
  | InternalOutputName
  | InternalVariableName
  | Typ
  | EventBindingChoice
  | LibraryBindingChoice
  | HookBindingChoice
  | SoundEventName
  | NoideChoice
  | Any
  | SchemaEnum
  | CommentBox
  | Vec4
  | QAngle
  | Transform
  | TransformWorldspace
  | Resource
  | Array
  | GameTime
  | TypeSafeInteger
  | GeneralEnum
deriving DecidableEq, Repr

/-- Modelled from the spec: the sound-event start type enumeration from the
missing `pulsetypes::enumerators` module; only its default value is ever
used by the migrator. -/
inductive SoundEventStartType where
  | StartDefault
deriving DecidableEq, Repr

/-- Modelled from the spec: the general enumeration choice from the missing
`pulsetypes::enumerators` module. -/
inductive GeneralEnumChoice where
  | SoundEventStartType (v : SoundEventStartType)
deriving DecidableEq, Repr

/-- Modelled from the spec: the schema enumeration kind from the missing
`pulsetypes::enumerators` module (payload of the `SchemaEnum` value). -/
structure SchemaEnumType where
  name : String
deriving DecidableEq, Repr

/-- Modelled from the spec: a schema enumeration value from the missing
`pulsetypes::enumerators` module. -/
structure SchemaEnumValue where
  name : String
deriving DecidableEq, Repr

/-- The per-port constant value (`PulseGraphValueType`,
`src/app/types.rs`).  Payload types coming from the missing `typing` and
`pulsetypes::enumerators` modules are modelled. -/
inductive PulseGraphValueType where
  | Vec2 (value : Vec2f)
  | Scalar (value : F32)
  | String (value : String)
  | Bool (value : Bool)
  | Vec3 (value : Vec3f)
  | Vec3Local (value : Vec3f)
  | Color (value : Vec4f)
  | EHandle
  | SndEventHandle
  | SoundEventName (value : String)
  | EntityName (value : String)
  | Action
  | InternalOutputName (prevvalue : String) (value : String)
  | InternalVariableName (prevvalue : String) (value : String)
  | Typ (value : PulseValueType)
  | EventBindingChoice (value : Nat)
  | LibraryBindingChoice (value : Nat)
  | HookBindingChoice (value : Nat)
  | NodeChoice (node : Option Nat)
  | Any
  | SchemaEnum (enum_type : SchemaEnumType) (value : SchemaEnumValue)
  | CommentBox (value : String)
  | Vec4 (value : Vec4f)
  | QAngle (value : Vec3f)
  | Transform
  | TransformWorldspace
  | Resource (resource_type : Option String) (value : String)
  | Array
  | GameTime
  | TypeSafeInteger (integer_type : String)
  | GeneralEnumChoice (value : GeneralEnumChoice)
deriving Repr

/-- Modelled from the spec: the connectivity mode of an input port
(`InputParamKind` of the `egui_node_graph2` graph-store crate, §3:
connection-only, constant-only, or connection-or-constant). -/
inductive InputParamKind where
  | ConnectionOnly
  | ConstantOnly
  | ConnectionOrConstant
deriving DecidableEq, Repr

/-- The node template tags (`PulseNodeTemplate`, `src/app/types.rs`).
`LibraryBindingAssigned` carries the stable catalog id
(`LibraryBindingIndex`, modelled as `Nat`). -/
inductive PulseNodeTemplate where
  | CellPublicMethod
  | EntFire
  | Compare
  | ConcatString
  | CellWait
  | GetVar
  | SetVar
  | EventHandler
  | IntToString
  | Operation
  | FindEntByName
  | DebugWorldText
  | DebugLog
  | FireOutput
  | GraphHook
  | GetGameTime
  | SetNextThink
  | Convert
  | ForLoop
  | WhileLoop
  | StringToEntityName
  | InvokeLibraryBinding
  | FindEntitiesWithin
  | IsValidEntity
  | CompareOutput
  | CompareIf
  | IntSwitch
  | SoundEventStart
  | Function
  | CallNode
  | ListenForEntityOutput
  | Timeline
  | Comment
  | SetAnimGraphParam
  | ConstantBool
  | ConstantFloat
  | ConstantString
  | ConstantVec3
  | ConstantInt
  | NewArray
  | LibraryBindingAssigned (binding : Nat)
  | GetArrayElement
  | ScaleVector
  | ReturnValue
  | ForEach
  | And
  | Or
  | Not
  | RandomInt
  | RandomFloat
  | EntOutputHandler
deriving Repr

/-- `LibraryBindingType` (`src/bindings.rs`): statement-like (`Action`)
versus value-like bindings. -/
inductive LibraryBindingType where
  | Action
  | Value
deriving DecidableEq, Repr

/-- `PolimorphicTypeInfo` (`src/bindings.rs`): the optional
polymorphic-return descriptor of a binding. -/
inductive PolimorphicTypeInfo where
  | TypeParam (name : String)
  | FullType (name : String)
  | ToSubtype (name : String)
deriving DecidableEq, Repr

/-- `ParamInfo` (`src/bindings.rs`): one named, typed binding parameter. -/
structure ParamInfo where
  name : String
  typ : String
  pulsetype : PulseValueType
  polymorphic_arg : Option PolimorphicTypeInfo
deriving DecidableEq, Repr

/-- `FunctionBinding` (`src/bindings.rs`). -/
structure FunctionBinding where
  id : Nat
  typ : LibraryBindingType
  displayname : String
  libname : String
  description : Option String
  inparams : Option (List ParamInfo)
  outparams : Option (List ParamInfo)
  polymorphic_return : Option PolimorphicTypeInfo
deriving DecidableEq, Repr

/-- `EventBinding` (`src/bindings.rs`). -/
structure EventBinding where
  id : Nat
  displayname : String
  libname : String
  inparams : Option (List ParamInfo)
deriving DecidableEq, Repr

/-- `HookBinding` (`src/bindings.rs`). -/
structure HookBinding where
  id : Nat
  displayname : String
  libname : String
  description : Option String
deriving DecidableEq, Repr

/-- `GraphBindings` (`src/bindings.rs`): the loaded binding catalog. -/
structure GraphBindings where
  gamefunctions : List FunctionBinding
  events : List EventBinding
  hooks : List HookBinding
deriving DecidableEq, Repr

/-- `GraphBindings::find_function_by_id` (`src/bindings.rs`). -/
def GraphBindings.find_function_by_id (b : GraphBindings) (id : Nat) :
    Option FunctionBinding :=
  b.gamefunctions.find? (fun f => f.id == id)

/-- `FunctionBinding::find_outparam_by_name` (`src/bindings.rs`). -/
def FunctionBinding.find_outparam_by_name (b : FunctionBinding)
    (name : String) : Option ParamInfo :=
  match b.outparams with
  | none => none
  | some params => params.find? (fun p => p.name == name)

/-- `PulseVariable` (`src/pulsetypes.rs`). -/
structure PulseVariable where
  name : String
  typ_and_default_value : PulseValueType
  data_type : PulseDataType
  default_value_buffer : String
deriving DecidableEq, Repr

/-- Node identity (`NodeId` of the graph store). -/
abbrev NodeId := Nat

/-- Input-port identity (`InputId` of the graph store). -/
abbrev InputId := Nat

/-- Output-port identity (`OutputId` of the graph store). -/
abbrev OutputId := Nat

/-- Modelled from the spec: an input port of the `egui_node_graph2` graph
store (§3: declared coarse category, connectivity mode, typed
default/current value), plus its owning node. -/
structure InputParam where
  node : NodeId
  typ : PulseDataType
  value : PulseGraphValueType
  kind : InputParamKind
deriving Repr

/-- Modelled from the spec: an output port of the graph store (§3: declared
coarse category only; outputs never hold constants). -/
structure OutputParam where
  node : NodeId
  typ : PulseDataType
deriving DecidableEq, Repr

/-- A node: template, ordered named input and output port lists, the
optional resolved output type and the user-added input ports (the fields of
`PulseNodeData` in `src/app/types.rs` merged with the graph-store node). -/
structure Node where
  template : PulseNodeTemplate
  inputs : List (String × InputId)
  outputs : List (String × OutputId)
  custom_output_type : Option PulseValueType := none
  added_inputs : List InputId := []
deriving Repr

/-- Modelled from the spec: the graph store (§3).  Nodes and ports are kept
in association lists keyed by identity; `connections` maps each connected
input port to the single output port feeding it (an input port has at most
one incoming connection); `next_id` supplies fresh port identities. -/
structure Graph where
  nodes : List (NodeId × Node)
  input_params : List (InputId × InputParam)
  output_params : List (OutputId × OutputParam)
  connections : List (InputId × OutputId)
  next_id : Nat
deriving Repr

/-- Node lookup (`graph.nodes.get(node_id)`). -/
def Graph.findNode (g : Graph) (nid : NodeId) : Option Node :=
  (g.nodes.find? (fun p => p.1 == nid)).map (fun p => p.2)

/-- Rewrite one node in place, keeping its identity. -/
def Graph.updateNode (g : Graph) (nid : NodeId) (f : Node → Node) : Graph :=
  { g with nodes := g.nodes.map (fun p => if p.1 == nid then (p.1, f p.2) else p) }

/-- Input-parameter lookup (`graph.get_input(input_id)`). -/
def Graph.getInputParam (g : Graph) (iid : InputId) : Option InputParam :=
  (g.input_params.find? (fun p => p.1 == iid)).map (fun p => p.2)

/-- Output-parameter lookup (`graph.get_output(output_id)`). -/
def Graph.getOutputParam (g : Graph) (oid : OutputId) : Option OutputParam :=
  (g.output_params.find? (fun p => p.1 == oid)).map (fun p => p.2)

/-- Rewrite one input parameter in place (`graph.get_input_mut`). -/
def Graph.updateInputParam (g : Graph) (iid : InputId)
    (f : InputParam → InputParam) : Graph :=
  { g with input_params :=
      g.input_params.map (fun p => if p.1 == iid then (p.1, f p.2) else p) }

/-- Rewrite one output parameter in place (`graph.get_output_mut`). -/
def Graph.updateOutputParam (g : Graph) (oid : OutputId)
    (f : OutputParam → OutputParam) : Graph :=
  { g with output_params :=
      g.output_params.map (fun p => if p.1 == oid then (p.1, f p.2) else p) }

/-- `node.get_input(name)`: the id of the input port with the given name
(input port names are unique within a node). -/
def Node.get_input (n : Node) (name : String) : Option InputId :=
  (n.inputs.find? (fun p => p.1 == name)).map (fun p => p.2)

/-- `node.get_output(name)`: the id of the output port with the given name. -/
def Node.get_output (n : Node) (name : String) : Option OutputId :=
  (n.outputs.find? (fun p => p.1 == name)).map (fun p => p.2)

/-- Modelled from the spec: `graph.add_input_param` of the graph store.  A
fresh port identity is allocated and the named port is appended at the end
of the node's input list (§4.1: new ports append). -/
def Graph.add_input_param (g : Graph) (nid : NodeId) (name : String)
    (typ : PulseDataType) (value : PulseGraphValueType)
    (kind : InputParamKind) : Graph :=
  let iid := g.next_id
  { nodes := g.nodes.map (fun p =>
      if p.1 == nid then (p.1, { p.2 with inputs := p.2.inputs ++ [(name, iid)] })
      else p)
    input_params := g.input_params ++ [(iid, ⟨nid, typ, value, kind⟩)]
    output_params := g.output_params
    connections := g.connections
    next_id := g.next_id + 1 }

/-- Modelled from the spec: `graph.add_output_param` of the graph store. -/
def Graph.add_output_param (g : Graph) (nid : NodeId) (name : String)
    (typ : PulseDataType) : Graph :=
  let oid := g.next_id
  { nodes := g.nodes.map (fun p =>
      if p.1 == nid then (p.1, { p.2 with outputs := p.2.outputs ++ [(name, oid)] })
      else p)
    input_params := g.input_params
    output_params := g.output_params ++ [(oid, ⟨nid, typ⟩)]
    connections := g.connections
    next_id := g.next_id + 1 }

/-- Modelled from the spec: `graph.remove_input_param`.  The port, its
incoming connection and its entry in the owning node's list are dropped. -/
def Graph.remove_input_param (g : Graph) (iid : InputId) : Graph :=
  { nodes := g.nodes.map (fun p =>
      (p.1, { p.2 with inputs := p.2.inputs.filter (fun q => q.2 != iid) }))
    input_params := g.input_params.filter (fun p => p.1 != iid)
    output_params := g.output_params
    connections := g.connections.filter (fun c => c.1 != iid)
    next_id := g.next_id }

/-- Modelled from the spec: `graph.remove_output_param`.  The port, every
connection fanning out of it and its entry in the owning node's list are
dropped. -/
def Graph.remove_output_param (g : Graph) (oid : OutputId) : Graph :=
  { nodes := g.nodes.map (fun p =>
      (p.1, { p.2 with outputs := p.2.outputs.filter (fun q => q.2 != oid) }))
    input_params := g.input_params
    output_params := g.output_params.filter (fun p => p.1 != oid)
    connections := g.connections.filter (fun c => c.2 != oid)
    next_id := g.next_id }

/-- Modelled from the spec: `crate::utils::get_node_ids_connected_to_output`
(the `utils` module is missing from the sources).  Per §4.2 step (3): for
the node's output port with the given name, find every input port currently
connected to it and return the owning node of each together with the name
of the receiving input port; `none` when the node has no such output. -/
def get_node_ids_connected_to_output (n : Node) (g : Graph)
    (output_name : String) : Option (List (NodeId × String)) :=
  match n.get_output output_name with
  | none => none
  | some oid => some (g.connections.filterMap (fun c =>
      if c.2 == oid then
        match g.getInputParam c.1 with
        | none => none
        | some ip =>
          match g.findNode ip.node with
          | none => none
          | some tn =>
            (tn.inputs.find? (fun q => q.2 == c.1)).map (fun q => (ip.node, q.1))
      else none))

/-- The graph-global user state (`PulseGraphState`, `src/app/types.rs`),
restricted to the fields the verified engine reads: the variable table, the
binding catalog and the two free-text graph-level fields. -/
structure PulseGraphState where
  /-- The variable table (source field `variables`; Lean reserves that
  identifier). -/
  vars : List PulseVariable
  bindings : GraphBindings
  graph_domain : String
  graph_subtype : String
deriving DecidableEq, Repr

/-- A node's visual-size record (`egui::vec2`; payload never inspected). -/
structure NodeSize where
  w : Nat
  h : Nat
deriving DecidableEq, Repr

/-- The editor state (`MyEditorState`), restricted to the graph and the
per-node size map the migrator populates. -/
structure MyEditorState where
  graph : Graph
  node_sizes : List (NodeId × NodeSize)
deriving Repr

/-- `FullGraphState` (`src/app.rs`): editor state plus user state. -/
structure FullGraphState where
  state : MyEditorState
  user_state : PulseGraphState
deriving Repr

/-- Modelled from the spec: `crate::typing::pulse_value_type_to_node_types`,
the Value-Type Catalog of §2 — a pure total map from every concrete value
type to its coarse port category and default value.  The `typing` module is
missing; entries follow the categories and defaults exhibited by the
visible call sites (`update_output_node_param` and `update_variable_data`
in `src/app.rs`: int and float are scalars defaulting to zero, strings
default to empty, handles carry no constant, arrays are connection-level
values). -/
def pulse_value_type_to_node_types (t : PulseValueType) :
    PulseDataType × PulseGraphValueType :=
  match t with
  | .PVAL_INT _ => (.Scalar, .Scalar ⟨0⟩)
  | .PVAL_FLOAT _ => (.Scalar, .Scalar ⟨0⟩)
  | .PVAL_STRING _ => (.String, .String "")
  | .PVAL_BOOL_VALUE _ => (.Bool, .Bool false)
  | .PVAL_VEC2 _ => (.Vec2, .Vec2 ⟨⟨0⟩, ⟨0⟩⟩)
  | .PVAL_VEC3 _ => (.Vec3, .Vec3 ⟨⟨0⟩, ⟨0⟩, ⟨0⟩⟩)
  | .PVAL_VEC3_LOCAL _ => (.Vec3Local, .Vec3Local ⟨⟨0⟩, ⟨0⟩, ⟨0⟩⟩)
  | .PVAL_VEC4 _ => (.Vec4, .Vec4 ⟨⟨0⟩, ⟨0⟩, ⟨0⟩, ⟨0⟩⟩)
  | .PVAL_QANGLE _ => (.QAngle, .QAngle ⟨⟨0⟩, ⟨0⟩, ⟨0⟩⟩)
  | .PVAL_COLOR_RGB _ => (.Color, .Color ⟨⟨0⟩, ⟨0⟩, ⟨0⟩, ⟨0⟩⟩)
  | .PVAL_EHANDLE _ => (.EHandle, .EHandle)
  | .PVAL_SNDEVT_GUID _ => (.SndEventHandle, .SndEventHandle)
  | .PVAL_RESOURCE _ _ => (.Resource, PulseGraphValueType.Resource none "")
  | .PVAL_GAMETIME _ => (.GameTime, .GameTime)
  | .PVAL_TRANSFORM _ => (.Transform, .Transform)
  | .PVAL_TRANSFORM_WORLDSPACE _ => (.TransformWorldspace, .TransformWorldspace)
  | .DOMAIN_ENTITY_NAME => (.EntityName, .EntityName "")
  | .PVAL_ARRAY _ => (.Array, .Array)

/-- Modelled from the spec: `crate::typing::get_preffered_inputparamkind_from_type`,
the fixed per-type connectivity preference table of §4.1 (`typing` is
missing).  Handle-like and array values are connection-only — the visible
call sites always pair `EHandle` with `ConnectionOnly` — and everything
else accepts a connection or a constant. -/
def get_preffered_inputparamkind_from_type (t : PulseValueType) :
    InputParamKind :=
  match t with
  | .PVAL_EHANDLE _ => .ConnectionOnly
  | .PVAL_SNDEVT_GUID _ => .ConnectionOnly
  | .PVAL_ARRAY _ => .ConnectionOnly
  | _ => .ConnectionOrConstant

/-- Modelled from the spec: `crate::typing::data_type_to_value_type`
(`typing` is missing): the default constant value for a coarse category,
used when rebuilding the store-variable value port. -/
def data_type_to_value_type (t : PulseDataType) : PulseGraphValueType :=
  match t with
  | .Scalar => .Scalar ⟨0⟩
  | .Vec2 => .Vec2 ⟨⟨0⟩, ⟨0⟩⟩
  | .Vec3 => .Vec3 ⟨⟨0⟩, ⟨0⟩, ⟨0⟩⟩
  | .Vec3Local => .Vec3Local ⟨⟨0⟩, ⟨0⟩, ⟨0⟩⟩
  | .Vec4 => .Vec4 ⟨⟨0⟩, ⟨0⟩, ⟨0⟩, ⟨0⟩⟩
  | .QAngle => .QAngle ⟨⟨0⟩, ⟨0⟩, ⟨0⟩⟩
  | .Color => .Color ⟨⟨0⟩, ⟨0⟩, ⟨0⟩, ⟨0⟩⟩
  | .String => .String ""
  | .Bool => .Bool false
  | .EHandle => .EHandle
  | .SndEventHandle => .SndEventHandle
  | .EntityName => .EntityName ""
  | .Action => .Action
  | .Transform => .Transform
  | .TransformWorldspace => .TransformWorldspace
  | .Resource => PulseGraphValueType.Resource none ""
  | .Array => .Array
  | .GameTime => .GameTime
  | _ => .Any

/-- Modelled from the spec: `PulseValueType::default()` (`typing` is
missing); the visible fresh-value sites always start from `PVAL_INT(None)`. -/
def PulseValueType.default : PulseValueType := .PVAL_INT none

/-- `PulseGraphValueType::try_pulse_type` (`src/app/impls.rs`), with the
error branch as `none`. -/
def PulseGraphValueType.try_pulse_type (v : PulseGraphValueType) :
    Option PulseValueType :=
  match v with
  | .Typ value => some value
  | _ => none

/-- Alias for the string type, usable inside namespaces that declare a
`String` constructor of their own. -/
abbrev Str := String

/-- `PulseGraphValueType::try_variable_name` (`src/app/impls.rs`), with the
error branch as `none`. -/
def PulseGraphValueType.try_variable_name (v : PulseGraphValueType) :
    Option Str :=
  match v with
  | .InternalVariableName _ value => some value
  | _ => none

/-- `PulseGraphValueType::try_node_id` (`src/app/impls.rs`), with the error
branches as `none`. -/
def PulseGraphValueType.try_node_id (v : PulseGraphValueType) :
    Option NodeId :=
  match v with
  | .NodeChoice (some node) => some node
  | _ => none

/-- The failure modes of the engine: `err` is a recoverable
`anyhow::Error` returned through `Result`, `panicked` is a Rust run-time
abort at an internal-invariant assertion. -/
inductive PropError where
  | err (msg : String)
  | panicked (msg : String)
deriving DecidableEq, Repr

/-- `has_polymorhpic_dependent_return` (`src/app.rs`, lines 1212-1230):
whether a node's template is polymorphic-dependent. -/
def has_polymorhpic_dependent_return (template : PulseNodeTemplate)
    (user_state : PulseGraphState) : Bool :=
  match template with
  | .GetArrayElement | .NewArray | .GetVar | .ForEach => true
  | .LibraryBindingAssigned idx =>
    match user_state.bindings.find_function_by_id idx with
    | some binding => binding.polymorphic_return.isSome
    | none => false
  | _ => false

/-- The per-template resolution block of `update_polymorphic_output_types`
(`src/app.rs`, lines 837-943): computes the optional newly resolved type
and applies the branch-local mutations.  The `NewArray` constant read
stands in for the missing `compiler::get_constant_graph_input_value!`
macro, modelled from the spec (§4.2: the type is read from the node's own
declared element-type input). -/
def resolve_new_type (st : FullGraphState) (node_id : NodeId)
    (node_data : Node) (source_type : Option PulseValueType)
    (source_input_name : Option String) :
    Except PropError (FullGraphState × Option PulseValueType) :=
  match node_data.template with
  | .NewArray =>
    match node_data.get_input "arrayType" with
    | none => .error (.err "constant input arrayType not found")
    | some iid =>
      match st.state.graph.getInputParam iid with
      | none => .error (.panicked "input param lookup failed")
      | some ip =>
        match ip.value.try_pulse_type with
        | none => .error (.err "arrayType input does not hold a type value")
        | some typ => .ok (st, some (.PVAL_ARRAY typ))
  | .GetArrayElement | .ForEach =>
    match source_type with
    | some s =>
      match s with
      | .PVAL_ARRAY inner =>
        match node_data.get_output "out" with
        | none => .error (.err "output out not found")
        | some out_id =>
          let g := st.state.graph.updateNode node_id
            (fun n => { n with custom_output_type := some inner })
          let g := g.updateOutputParam out_id
            (fun o => { o with typ := (pulse_value_type_to_node_types inner).1 })
          .ok ({ st with state := { st.state with graph := g } }, some inner)
      | _ =>
        .error (.panicked "GetArrayElement or ForEach source type was not an array")
    | none => .ok (st, none)
  | .LibraryBindingAssigned binding_idx =>
    match st.user_state.bindings.find_function_by_id binding_idx with
    | none => .error (.err "Library binding node cannot find its saved binding")
    | some binding =>
      let new_type := match source_type with
        | some t => some t
        | none => node_data.custom_output_type
      match binding.polymorphic_return with
      | none => .ok (st, none)
      | some (.FullType param_name) =>
        if source_input_name == some param_name || source_input_name == none then
          let g := st.state.graph.updateNode node_id
            (fun n => { n with custom_output_type := new_type })
          .ok ({ st with state := { st.state with graph := g } }, new_type)
        else
          .ok (st, none)
      | some (.TypeParam param_name) =>
        if source_input_name == some param_name || source_input_name == none then
          match new_type with
          | none => .ok (st, none)
          | some nt =>
            match nt with
            | .PVAL_ARRAY inner =>
              let g := st.state.graph.updateNode node_id
                (fun n => { n with custom_output_type := some inner })
              .ok ({ st with state := { st.state with graph := g } }, some inner)
            | _ =>
              .error (.panicked "polymorphic type parameter was not an array type")
        else
          .ok (st, none)
      | some (.ToSubtype _) =>
        match binding.find_outparam_by_name "retval" with
        | some param => .ok (st, some param.pulsetype)
        | none => .ok (st, some (.PVAL_ARRAY (.PVAL_EHANDLE none)))
  | .GetVar =>
    match node_data.get_input "variableName" with
    | none => .error (.err "input variableName not found")
    | some name_id =>
      match st.state.graph.getInputParam name_id with
      | none => .error (.panicked "input param lookup failed")
      | some ip =>
        match ip.value.try_variable_name with
        | none => .error (.err "value was not a variable name")
        | some var_name =>
          .ok (st, (st.user_state.vars.find? (fun v => v.name == var_name)).map
            (fun v => v.typ_and_default_value))
  | _ => .ok (st, none)

/-- The recursive propagation loop at the end of
`update_polymorphic_output_types` (`src/app.rs`, lines 963-970): visit each
connected downstream node in turn, passing the new type and the name of
the receiving input port, stopping at the first error.  The recursion into
the propagator itself is threaded through `step`. -/
def propagate_to_connected
    (step : FullGraphState → NodeId → Option PulseValueType → Option String →
      Except PropError FullGraphState)
    (new_type : Option PulseValueType) :
    FullGraphState → List (NodeId × String) → Except PropError FullGraphState
  | st, [] => .ok st
  | st, (nid, input_name) :: rest =>
    match step st nid new_type (some input_name) with
    | .error e => .error e
    | .ok st' => propagate_to_connected step new_type st' rest

/-- `update_polymorphic_output_types` (`src/app.rs`, lines 829-973): the
type propagator.  Recursion is bounded by explicit fuel, standing in for
the unbounded Rust call stack; exhausting the fuel is an error, which on a
cycle-free graph of depth below the fuel never happens.  When a new type is
resolved it is stored as the node's resolved output type and propagation
recurses into every node connected to the `out`, `retval` and `value`
output ports. -/
def update_polymorphic_output_types (fuel : Nat) (st : FullGraphState)
    (node_id : NodeId) (source_type : Option PulseValueType)
    (source_input_name : Option String) : Except PropError FullGraphState :=
  match fuel with
  | 0 => .error (.err "recursion depth limit reached")
  | f + 1 =>
    match st.state.graph.findNode node_id with
    | none => .error (.err "Node not found in the graph")
    | some node_data =>
      if ¬ has_polymorhpic_dependent_return node_data.template st.user_state then
        .ok st
      else
        match resolve_new_type st node_id node_data source_type source_input_name with
        | .error e => .error e
        | .ok (st1, opt_new_type) =>
          match opt_new_type with
          | none => .ok st1
          | some _ =>
            let st2 : FullGraphState :=
              { st1 with state := { st1.state with
                  graph := st1.state.graph.updateNode node_id
                    (fun n => { n with custom_output_type := opt_new_type }) } }
            match st2.state.graph.findNode node_id with
            | none => .error (.panicked "node lookup unwrap failed")
            | some n =>
              let outnodes :=
                (get_node_ids_connected_to_output n st2.state.graph "out").getD []
              let outnodes2 :=
                (get_node_ids_connected_to_output n st2.state.graph "retval").getD []
              let outnodes3 :=
                (get_node_ids_connected_to_output n st2.state.graph "value").getD []
              propagate_to_connected
                (fun st nid t nm => update_polymorphic_output_types f st nid t nm)
                opt_new_type st2 (outnodes ++ outnodes2 ++ outnodes3)

/-- `update_library_binding_params` (`src/app.rs`, lines 607-667): rebuild
the ports of a binding-bound node against a catalog entry.  All output
ports and all input ports except the fixed `binding` selector are deleted;
statement-like (`Action`) bindings get an `outAction` output control port
and an `ActionIn` input control port; then one input port per declared
input parameter and one output port per declared output parameter are
appended, in catalog declaration order. -/
def update_library_binding_params (st : FullGraphState) (node_id : NodeId)
    (binding : FunctionBinding) : Except PropError FullGraphState :=
  match st.state.graph.findNode node_id with
  | none => .error (.panicked "node lookup unwrap failed")
  | some node0 =>
    let output_ids := node0.outputs.map (fun p => p.2)
    let g := output_ids.foldl (fun g oid => g.remove_output_param oid) st.state.graph
    match g.findNode node_id with
    | none => .error (.panicked "node lookup unwrap failed")
    | some node1 =>
      let input_ids := node1.inputs.map (fun p => p.2)
      match node1.get_input "binding" with
      | none =>
        .error (.panicked "expected Invoke library binding node to have binding input param")
      | some binding_chooser_input_id =>
        let g := input_ids.foldl (fun g iid =>
            if iid != binding_chooser_input_id then g.remove_input_param iid else g) g
        let g :=
          if binding.typ == .Action then
            let g := g.add_output_param node_id "outAction" .Action
            g.add_input_param node_id "ActionIn" .Action .Action .ConnectionOrConstant
          else g
        let g := match binding.inparams with
          | none => g
          | some inparams => inparams.foldl (fun g p =>
              g.add_input_param node_id p.name
                (pulse_value_type_to_node_types p.pulsetype).1
                (pulse_value_type_to_node_types p.pulsetype).2
                (get_preffered_inputparamkind_from_type p.pulsetype)) g
        let g := match binding.outparams with
          | none => g
          | some outparams => outparams.foldl (fun g p =>
              g.add_output_param node_id p.name
                (pulse_value_type_to_node_types p.pulsetype).1) g
        .ok { st with state := { st.state with graph := g } }

/-- `update_node_inputs_outputs_types` (`src/app.rs`, lines 425-605): the
template-dispatched port retype operation triggered by configuration
changes. -/
def update_node_inputs_outputs_types (st : FullGraphState) (node_id : NodeId)
    (name : String) (new_type : Option PulseValueType) :
    Except PropError FullGraphState :=
  match st.state.graph.findNode node_id with
  | none => .error (.panicked "node lookup unwrap failed")
  | some node =>
    match node.template with
    | .GetVar =>
      let g := match node.get_output "value" with
        | some oid => st.state.graph.remove_output_param oid
        | none => st.state.graph
      let g := match st.user_state.vars.find? (fun v => v.name == name) with
        | some var => g.add_output_param node_id "value" var.data_type
        | none => g
      .ok { st with state := { st.state with graph := g } }
    | .SetVar =>
      let g := match node.get_input "value" with
        | some iid => st.state.graph.remove_input_param iid
        | none => st.state.graph
      let g := match st.user_state.vars.find? (fun v => v.name == name) with
        | some var =>
          g.add_input_param node_id "value" var.data_type
            (data_type_to_value_type var.data_type) .ConnectionOrConstant
        | none => g
      .ok { st with state := { st.state with graph := g } }
    | .Operation =>
      match new_type with
      | none => .error (.panicked "required new value type was not provided")
      | some new_type =>
        match node.get_input "A", node.get_input "B", node.get_output "out" with
        | some a, some b, some outp =>
          let g := st.state.graph.remove_input_param a
          let g := g.remove_input_param b
          let g := g.remove_output_param outp
          let types := pulse_value_type_to_node_types new_type
          let g := g.add_input_param node_id "A" types.1 types.2 .ConnectionOrConstant
          let g := g.add_input_param node_id "B" types.1 types.2 .ConnectionOrConstant
          let g := g.add_output_param node_id "out" types.1
          .ok { st with state := { st.state with graph := g } }
        | _, _, _ =>
          .error (.panicked "node requires inputs A, B and output out")
    | .Convert =>
      if name == "typefrom" then
        match node.get_input "input" with
        | some iid =>
          let g := st.state.graph.remove_input_param iid
          match new_type with
          | none => .error (.panicked "unwrap of new_type failed")
          | some t =>
            let types := pulse_value_type_to_node_types t
            let g := g.add_input_param node_id "input" types.1 types.2
              .ConnectionOrConstant
            .ok { st with state := { st.state with graph := g } }
        | none => .ok st
      else if name == "typeto" then
        match node.get_output "out" with
        | some oid =>
          let g := st.state.graph.remove_output_param oid
          match new_type with
          | none => .error (.panicked "unwrap of new_type failed")
          | some t =>
            let types := pulse_value_type_to_node_types t
            let g := g.add_output_param node_id "out" types.1
            .ok { st with state := { st.state with graph := g } }
        | none => .ok st
      else .ok st
    | .Compare | .CompareOutput =>
      match new_type with
      | none => .error (.panicked "required new value type was not provided")
      | some new_type =>
        match node.get_input "A", node.get_input "B" with
        | some a, some b =>
          let g := st.state.graph.remove_input_param a
          let g := g.remove_input_param b
          let types := pulse_value_type_to_node_types new_type
          let g := g.add_input_param node_id "A" types.1 types.2 .ConnectionOrConstant
          let g := g.add_input_param node_id "B" types.1 types.2 .ConnectionOrConstant
          .ok { st with state := { st.state with graph := g } }
        | _, _ => .error (.panicked "node requires inputs A and B")
    | .GetArrayElement =>
      match new_type with
      | none => .error (.panicked "required new value type was not provided")
      | some new_type =>
        match node.get_input "expectedType" with
        | none => .error (.panicked "node requires input expectedType")
        | some _ =>
          match node.get_output "out" with
          | some oid =>
            let g := st.state.graph.remove_output_param oid
            let types := pulse_value_type_to_node_types new_type
            let g := g.add_output_param node_id "out" types.1
            .ok { st with state := { st.state with graph := g } }
          | none => .ok st
    | .ScaleVector =>
      match new_type with
      | none => .error (.panicked "required new value type was not provided")
      | some new_type =>
        let types := pulse_value_type_to_node_types new_type
        match node.get_output "out" with
        | none => .error (.panicked "node requires output out")
        | some oid =>
          let g := st.state.graph.updateOutputParam oid
            (fun o => { o with typ := types.1 })
          match node.get_input "vector" with
          | none => .error (.panicked "input vector not found")
          | some vid =>
            let g := g.remove_input_param vid
            let g := g.add_input_param node_id "vector" types.1 types.2
              .ConnectionOrConstant
            .ok { st with state := { st.state with graph := g } }
    | .NewArray =>
      let types := pulse_value_type_to_node_types
        (new_type.getD PulseValueType.default)
      let g := node.added_inputs.foldl (fun g iid =>
          g.updateInputParam iid
            (fun p => { p with typ := types.1, value := types.2 })) st.state.graph
      .ok { st with state := { st.state with graph := g } }
    | _ => .ok st

/-- Substring test over character lists (`str::contains`). -/
def listContainsSub (sub : List Char) : List Char → Bool
  | [] => sub.isEmpty
  | c :: rest => sub.isPrefixOf (c :: rest) || listContainsSub sub rest

/-- `str::contains` for strings. -/
def strContains (s sub : String) : Bool :=
  listContainsSub sub.data s.data

/-- `str::to_lowercase`, character by character. -/
def strToLower (s : String) : String :=
  String.mk (s.data.map Char.toLower)

/-- The input filter of the `verify_compat` binding branch (`src/app.rs`,
lines 120-123): keep only inputs whose lower-cased name contains neither
"action" nor "binding". -/
def is_nonmarker_binding_input (name : String) : Bool :=
  let lower := strToLower name
  ¬ (strContains lower "action" || strContains lower "binding")

/-- The rename pass of the `verify_compat` binding branch (`src/app.rs`,
lines 125-129): the idx-th non-marker input, in order, takes the name of
the idx-th declared parameter. -/
def rename_binding_inputs (params : List ParamInfo) :
    List (String × InputId) → Nat → List (String × InputId)
  | [], _ => []
  | (nm, iid) :: rest, k =>
    if is_nonmarker_binding_input nm then
      match params[k]? with
      | some p => (p.name, iid) :: rename_binding_inputs params rest (k + 1)
      | none => (nm, iid) :: rename_binding_inputs params rest (k + 1)
    else
      (nm, iid) :: rename_binding_inputs params rest k

/-- `QueuedAddParams` (`src/app.rs`, lines 99-104): an additive input-port
insert queued by the migrator. -/
structure QueuedAddParams where
  node_id : NodeId
  param_name : String
  types : PulseDataType × PulseGraphValueType
  connection_type : InputParamKind
deriving Repr

/-- The accumulator of the `verify_compat` scan loop (`src/app.rs`, lines
95-105): the threaded graph and the per-template repair work lists. -/
structure CompatScan where
  g : Graph
  sound_event_nodes : List NodeId
  entfire_nodes : List NodeId
  call_func_nodes : List NodeId
  listen_entity_output_nodes : List NodeId
  queued_add_params : List QueuedAddParams
deriving Repr

/-- One iteration of the `verify_compat` scan loop (`src/app.rs`, lines
106-178). -/
def verify_compat_scan_node (user_state : PulseGraphState) (acc : CompatScan)
    (nid : NodeId) : CompatScan :=
  match acc.g.findNode nid with
  | none => acc
  | some node =>
    match node.template with
    | .LibraryBindingAssigned binding_idx =>
      match user_state.bindings.find_function_by_id binding_idx with
      | none => acc
      | some binding =>
        match binding.inparams with
        | none => acc
        | some params =>
          let nonmarker_count :=
            (node.inputs.filter (fun p => is_nonmarker_binding_input p.1)).length
          let g := acc.g.updateNode nid
            (fun n => { n with inputs := rename_binding_inputs params n.inputs 0 })
          let newly := (params.drop nonmarker_count).map (fun p =>
            QueuedAddParams.mk nid p.name (pulse_value_type_to_node_types p.pulsetype)
              (get_preffered_inputparamkind_from_type p.pulsetype))
          { acc with g := g, queued_add_params := acc.queued_add_params ++ newly }
    | .SoundEventStart =>
      if (node.get_input "soundEventType").isNone then
        { acc with sound_event_nodes := acc.sound_event_nodes ++ [nid] }
      else acc
    | .EntFire =>
      if (node.get_input "entityHandle").isNone then
        { acc with entfire_nodes := acc.entfire_nodes ++ [nid] }
      else acc
    | .CallNode =>
      if (node.get_input "Async").isNone then
        let target :=
          match node.get_input "nodeId" with
          | none => none
          | some iid =>
            match acc.g.getInputParam iid with
            | none => none
            | some ip => ip.value.try_node_id
        match target with
        | none => acc
        | some tid =>
          match acc.g.findNode tid with
          | none => acc
          | some tn =>
            match tn.template with
            | .Function =>
              { acc with call_func_nodes := acc.call_func_nodes ++ [nid] }
            | .ListenForEntityOutput =>
              { acc with listen_entity_output_nodes :=
                  acc.listen_entity_output_nodes ++ [nid] }
            | _ => acc
      else acc
    | _ => acc

/-- The `retain`-and-reinsert dance of the sound-event repair (`src/app.rs`,
lines 200-209): record the id of the last input visited, drop every input
named `ActionIn`, and reinsert that id at the front under the name
`ActionIn` (the recorded id is the just-appended `ActionIn` port, the last
element of the list). -/
def move_action_in_to_front (inputs : List (String × InputId)) :
    List (String × InputId) :=
  let acc := inputs.foldl
    (fun (a : Option InputId × List (String × InputId)) inp =>
      (some inp.2, if inp.1 == "ActionIn" then a.2 else a.2 ++ [inp]))
    (none, [])
  match acc.1 with
  | some iid => ("ActionIn", iid) :: acc.2
  | none => acc.2

/-- `FullGraphState::verify_compat` (`src/app.rs`, lines 87-256): the
schema migrator, run once after load.  It populates the node-size map when
empty, scans every node collecting per-template repairs, applies them
(sound-event inputs, the entity-fire handle input, the call-node `Async`
flag, the removed `outAction` output, queued binding parameters) and fills
in the default graph domain and subtype when empty. -/
def verify_compat (st : FullGraphState) : FullGraphState :=
  let st :=
    if st.state.node_sizes.isEmpty then
      { st with state := { st.state with
          node_sizes := st.state.graph.nodes.map (fun p => (p.1, NodeSize.mk 200 200)) } }
    else st
  let node_ids := st.state.graph.nodes.map (fun p => p.1)
  let scan := node_ids.foldl (verify_compat_scan_node st.user_state)
    (CompatScan.mk st.state.graph [] [] [] [] [])
  let g := scan.sound_event_nodes.foldl (fun g nid =>
      let g := g.add_input_param nid "soundEventType" .GeneralEnum
        (.GeneralEnumChoice (.SoundEventStartType .StartDefault)) .ConstantOnly
      let g := g.add_input_param nid "ActionIn" .Action .Action .ConnectionOnly
      let g := g.add_output_param nid "outAction" .Action
      g.updateNode nid (fun n => { n with inputs := move_action_in_to_front n.inputs }))
    scan.g
  let g := scan.entfire_nodes.foldl (fun g nid =>
      g.add_input_param nid "entityHandle" .EHandle .EHandle .ConnectionOnly) g
  let g := scan.call_func_nodes.foldl (fun g nid =>
      g.add_input_param nid "Async" .Bool (.Bool false) .ConstantOnly) g
  let g := scan.listen_entity_output_nodes.foldl (fun g nid =>
      match g.findNode nid with
      | none => g
      | some n =>
        match n.get_output "outAction" with
        | some oid => g.remove_output_param oid
        | none => g) g
  let g := scan.queued_add_params.foldl (fun g q =>
      g.add_input_param q.node_id q.param_name q.types.1 q.types.2 q.connection_type) g
  let st := { st with state := { st.state with graph := g } }
  let st :=
    if st.user_state.graph_domain.isEmpty then
      { st with user_state := { st.user_state with graph_domain := "ServerEntity" } }
    else st
  if st.user_state.graph_subtype.isEmpty then
    { st with user_state := { st.user_state with graph_subtype := "PVAL_EHANDLE:point_pulse" } }
  else st

/-! ## Derived observers and lemma kit -/

/-- Whether a concrete value type is an array type. -/
def PulseValueType.isArrayValue : PulseValueType → Bool
  | .PVAL_ARRAY _ => true
  | _ => false

/-- The node's stored resolved output type, as seen from the full state. -/
def FullGraphState.nodeCustom (st : FullGraphState) (nid : NodeId) :
    Option (Option PulseValueType) :=
  (st.state.graph.findNode nid).map (fun n => n.custom_output_type)

/-- The declared category of an output port, as seen from the full state. -/
def FullGraphState.outputTyp (st : FullGraphState) (oid : OutputId) :
    Option PulseDataType :=
  (st.state.graph.getOutputParam oid).map (fun o => o.typ)

/-- Store a resolved output type on one node, leaving everything else
untouched. -/
def FullGraphState.setNodeCustom (st : FullGraphState) (nid : NodeId)
    (v : Option PulseValueType) : FullGraphState :=
  { st with state := { st.state with
      graph := st.state.graph.updateNode nid
        (fun n => { n with custom_output_type := v }) } }

/-- Overwrite the declared category of one output port, leaving everything
else untouched. -/
def FullGraphState.setOutputTyp (st : FullGraphState) (oid : OutputId)
    (t : PulseDataType) : FullGraphState :=
  { st with state := { st.state with
      graph := st.state.graph.updateOutputParam oid
        (fun o => { o with typ := t }) } }

/-- A node's named input ports resolved to their parameters, identities
erased. -/
def Graph.inputPortsOf (g : Graph) (nid : NodeId) :
    List (String × InputParam) :=
  match g.findNode nid with
  | none => []
  | some n => n.inputs.filterMap
      (fun q => (g.getInputParam q.2).map (fun ip => (q.1, ip)))

/-- A node's named output ports resolved to their parameters, identities
erased. -/
def Graph.outputPortsOf (g : Graph) (nid : NodeId) :
    List (String × OutputParam) :=
  match g.findNode nid with
  | none => []
  | some n => n.outputs.filterMap
      (fun q => (g.getOutputParam q.2).map (fun op => (q.1, op)))

theorem find?_key_map {β : Type} (l : List (Nat × β)) (k : Nat)
    (f : β → β) :
    (l.map (fun p => if p.1 == k then (p.1, f p.2) else p)).find?
        (fun p => p.1 == k) =
      (l.find? (fun p => p.1 == k)).map (fun p => (p.1, f p.2)) := by
  induction l with
  | nil => rfl
  | cons x xs ih =>
    by_cases h : (x.1 == k) = true
    · simp only [List.map_cons, List.find?_cons, if_pos h]
      rw [h]
      rfl
    · have hf : (x.1 == k) = false := by simpa using h
      simp only [List.map_cons, List.find?_cons, if_neg h, hf]
      simpa [hf] using ih

theorem findNode_updateNode_self (g : Graph) (nid : NodeId) (f : Node → Node) :
    (g.updateNode nid f).findNode nid = (g.findNode nid).map f := by
  simp only [Graph.updateNode, Graph.findNode, find?_key_map]
  cases g.nodes.find? (fun p => p.1 == nid) <;> rfl

theorem findNode_updateOutputParam (g : Graph) (oid : OutputId)
    (f : OutputParam → OutputParam) (nid : NodeId) :
    (g.updateOutputParam oid f).findNode nid = g.findNode nid := rfl

theorem getOutputParam_updateNode (g : Graph) (nid : NodeId) (f : Node → Node)
    (oid : OutputId) :
    (g.updateNode nid f).getOutputParam oid = g.getOutputParam oid := rfl

theorem getOutputParam_updateOutputParam_self (g : Graph) (oid : OutputId)
    (f : OutputParam → OutputParam) :
    (g.updateOutputParam oid f).getOutputParam oid =
      (g.getOutputParam oid).map f := by
  simp only [Graph.updateOutputParam, Graph.getOutputParam, find?_key_map]
  cases g.output_params.find? (fun p => p.1 == oid) <;> rfl

theorem connections_updateNode (g : Graph) (nid : NodeId) (f : Node → Node) :
    (g.updateNode nid f).connections = g.connections := rfl

theorem connections_updateOutputParam (g : Graph) (oid : OutputId)
    (f : OutputParam → OutputParam) :
    (g.updateOutputParam oid f).connections = g.connections := rfl

theorem get_output_setCustom (nd : Node) (v : Option PulseValueType)
    (nm : String) :
    Node.get_output { nd with custom_output_type := v } nm =
      nd.get_output nm := rfl

/-- With no connections in the graph, every connected-target list is empty. -/
theorem connected_targets_nil (n : Node) (g : Graph) (nm : String)
    (h : g.connections = []) :
    (get_node_ids_connected_to_output n g nm).getD [] = [] := by
  unfold get_node_ids_connected_to_output
  cases n.get_output nm <;> simp [h]

theorem updateNode_updateNode (g : Graph) (k : NodeId) (f f₂ : Node → Node) :
    (g.updateNode k f).updateNode k f₂ = g.updateNode k (fun n => f₂ (f n)) := by
  unfold Graph.updateNode
  simp only [List.map_map]
  congr 1
  apply List.map_congr_left
  intro p _
  by_cases h : p.1 = k <;> simp [h]

theorem updateNode_updateOutputParam_comm (g : Graph) (k : NodeId)
    (f : Node → Node) (oid : OutputId) (f₂ : OutputParam → OutputParam) :
    (g.updateNode k f).updateOutputParam oid f₂ =
      (g.updateOutputParam oid f₂).updateNode k f := rfl

/-- Propagation on a node whose template is not polymorphic-dependent
returns immediately with `Ok` and touches nothing. -/
theorem update_poly_of_not_dependent (fuel : Nat) (st : FullGraphState)
    (node_id : NodeId) (source_type : Option PulseValueType)
    (source_input_name : Option String) (nd : Node)
    (hfind : st.state.graph.findNode node_id = some nd)
    (hpoly : has_polymorhpic_dependent_return nd.template st.user_state = false) :
    update_polymorphic_output_types (fuel + 1) st node_id source_type
      source_input_name = .ok st := by
  simp only [update_polymorphic_output_types, hfind, hpoly]
  simp

/-! ## Claims -/

/-! ### C3 -/

/-- C3: for every node whose template is not polymorphic-dependent,
invoking the type propagator on it returns immediately with `Ok` and
leaves the whole graph state unchanged (the node is a propagation sink). -/
theorem C3_non_polymorphic_node_is_propagation_sink (fuel : Nat)
    (st : FullGraphState) (node_id : NodeId)
    (source_type : Option PulseValueType) (source_input_name : Option String)
    (nd : Node) (hfind : st.state.graph.findNode node_id = some nd)
    (hpoly : has_polymorhpic_dependent_return nd.template st.user_state = false) :
    update_polymorphic_output_types (fuel + 1) st node_id source_type
      source_input_name = .ok st :=
  update_poly_of_not_dependent fuel st node_id source_type source_input_name
    nd hfind hpoly

/-- An empty binding catalog. -/
def noBindings : GraphBindings := ⟨[], [], []⟩

/-- A comment node: its template is not polymorphic-dependent. -/
def commentNode : Node := { template := .Comment, inputs := [], outputs := [] }

/-- A one-node state holding only a comment node. -/
def stSink : FullGraphState :=
  { state :=
      { graph :=
          { nodes := [(0, commentNode)], input_params := [], output_params := []
            connections := [], next_id := 0 }
        node_sizes := [] }
    user_state := { vars := [], bindings := noBindings, graph_domain := "d", graph_subtype := "s" } }

theorem C3_witness :
    stSink.state.graph.findNode 0 = some commentNode ∧
    has_polymorhpic_dependent_return commentNode.template stSink.user_state = false ∧
    update_polymorphic_output_types 1 stSink 0 none none = .ok stSink :=
  ⟨rfl, rfl,
    C3_non_polymorphic_node_is_propagation_sink 0 stSink 0 none none
      commentNode rfl rfl⟩

/-! ### C10 -/

/-- C10: a binding-bound node whose stored binding id is absent from the
loaded catalog is a propagation sink: the propagator returns `Ok` and
leaves the graph unchanged, so the internal missing-binding error path is
unreachable. -/
theorem C10_missing_binding_node_is_sink (fuel : Nat) (st : FullGraphState)
    (node_id : NodeId) (source_type : Option PulseValueType)
    (source_input_name : Option String) (nd : Node) (b : Nat)
    (hfind : st.state.graph.findNode node_id = some nd)
    (htempl : nd.template = .LibraryBindingAssigned b)
    (hmiss : st.user_state.bindings.find_function_by_id b = none) :
    update_polymorphic_output_types (fuel + 1) st node_id source_type
      source_input_name = .ok st := by
  apply update_poly_of_not_dependent fuel st node_id source_type
    source_input_name nd hfind
  simp [has_polymorhpic_dependent_return, htempl, hmiss]

/-- A binding-bound node whose binding id 42 is absent from the catalog. -/
def orphanBindingNode : Node :=
  { template := .LibraryBindingAssigned 42, inputs := [("binding", 0)]
    outputs := [] }

/-- A one-node state holding only the orphan binding-bound node, with an
empty binding catalog. -/
def stOrphan : FullGraphState :=
  { state :=
      { graph :=
          { nodes := [(0, orphanBindingNode)]
            input_params := [(0, ⟨0, .LibraryBindingChoice, .LibraryBindingChoice 42, .ConstantOnly⟩)]
            output_params := [], connections := [], next_id := 1 }
        node_sizes := [] }
    user_state := { vars := [], bindings := noBindings, graph_domain := "d", graph_subtype := "s" } }

/-! ### C2 -/

theorem update_poly_array_consumer_nonarray (fuel : Nat) (st : FullGraphState)
    (node_id : NodeId) (nd : Node) (sname : Option String)
    (t : PulseValueType)
    (hfind : st.state.graph.findNode node_id = some nd)
    (htempl : nd.template = .GetArrayElement ∨ nd.template = .ForEach)
    (ht : t.isArrayValue = false) :
    update_polymorphic_output_types (fuel + 1) st node_id (some t) sname =
      .error (.panicked "GetArrayElement or ForEach source type was not an array") := by
  rcases htempl with h | h <;>
  · simp only [update_polymorphic_output_types, hfind]
    rw [show has_polymorhpic_dependent_return nd.template st.user_state = true
      by simp [has_polymorhpic_dependent_return, h]]
    simp only [resolve_new_type, h]
    cases t <;> simp_all [PulseValueType.isArrayValue]

theorem update_poly_array_consumer_ok (fuel : Nat) (st : FullGraphState)
    (node_id : NodeId) (nd : Node) (sname : Option String)
    (T : PulseValueType) (oid : OutputId)
    (hfind : st.state.graph.findNode node_id = some nd)
    (htempl : nd.template = .GetArrayElement ∨ nd.template = .ForEach)
    (hout : nd.get_output "out" = some oid)
    (hconn : st.state.graph.connections = []) :
    update_polymorphic_output_types (fuel + 1) st node_id
      (some (.PVAL_ARRAY T)) sname =
      .ok ((st.setNodeCustom node_id (some T)).setOutputTyp oid
        (pulse_value_type_to_node_types T).1) := by
  rcases htempl with h | h <;>
  · simp only [update_polymorphic_output_types, hfind]
    rw [show has_polymorhpic_dependent_return nd.template st.user_state = true
      by simp [has_polymorhpic_dependent_return, h]]
    simp only [resolve_new_type, h, hout]
    simp only [findNode_updateNode_self, findNode_updateOutputParam,
      hfind, Option.map_some']
    simp only [connected_targets_nil _ _ _ (by
      simp [connections_updateNode, connections_updateOutputParam, hconn] :
        (((st.state.graph.updateNode node_id (fun n =>
            { n with custom_output_type := some T })).updateOutputParam oid
            (fun o => { o with typ := (pulse_value_type_to_node_types T).1 })).updateNode
            node_id (fun n => { n with custom_output_type := some T })).connections = []),
      List.append_nil, propagate_to_connected]
    rw [← updateNode_updateOutputParam_comm, updateNode_updateNode]
    simp only [not_true, if_false]
    rfl

theorem update_poly_typeparam_nonarray (fuel : Nat) (st : FullGraphState)
    (node_id : NodeId) (nd : Node) (sname : Option String)
    (b : Nat) (binding : FunctionBinding) (p : String) (t : PulseValueType)
    (hfind : st.state.graph.findNode node_id = some nd)
    (htempl : nd.template = .LibraryBindingAssigned b)
    (hbind : st.user_state.bindings.find_function_by_id b = some binding)
    (hdescr : binding.polymorphic_return = some (.TypeParam p))
    (hgate : sname = none ∨ sname = some p)
    (ht : t.isArrayValue = false) :
    update_polymorphic_output_types (fuel + 1) st node_id (some t) sname =
      .error (.panicked "polymorphic type parameter was not an array type") := by
  have hg : (sname == some p || sname == none) = true := by
    rcases hgate with h | h <;> simp [h]
  simp only [update_polymorphic_output_types, hfind]
  rw [show has_polymorhpic_dependent_return nd.template st.user_state = true
    by simp [has_polymorhpic_dependent_return, htempl, hbind, hdescr]]
  simp only [resolve_new_type, htempl, hbind, hdescr, hg]
  cases t <;> simp_all [PulseValueType.isArrayValue]

theorem update_poly_typeparam_ok (fuel : Nat) (st : FullGraphState)
    (node_id : NodeId) (nd : Node) (sname : Option String)
    (b : Nat) (binding : FunctionBinding) (p : String) (T : PulseValueType)
    (hfind : st.state.graph.findNode node_id = some nd)
    (htempl : nd.template = .LibraryBindingAssigned b)
    (hbind : st.user_state.bindings.find_function_by_id b = some binding)
    (hdescr : binding.polymorphic_return = some (.TypeParam p))
    (hgate : sname = none ∨ sname = some p)
    (hconn : st.state.graph.connections = []) :
    update_polymorphic_output_types (fuel + 1) st node_id
      (some (.PVAL_ARRAY T)) sname =
      .ok (st.setNodeCustom node_id (some T)) := by
  have hg : (sname == some p || sname == none) = true := by
    rcases hgate with h | h <;> simp [h]
  simp only [update_polymorphic_output_types, hfind]
  rw [show has_polymorhpic_dependent_return nd.template st.user_state = true
    by simp [has_polymorhpic_dependent_return, htempl, hbind, hdescr]]
  simp only [resolve_new_type, htempl, hbind, hdescr]
  rw [if_pos hg]
  simp only [findNode_updateNode_self, hfind, Option.map_some']
  simp only [connected_targets_nil _ _ _ (by
    simp [connections_updateNode, hconn] :
      (((st.state.graph.updateNode node_id (fun n =>
          { n with custom_output_type := some T })).updateNode node_id
          (fun n => { n with custom_output_type := some T })).connections = [])),
    List.append_nil, propagate_to_connected]
  rw [updateNode_updateNode]
  simp only [not_true, if_false]
  rfl

/-- C2 (amended): an array-element getter or for-each node reached with a
present non-array inbound type aborts with the invariant-violation
condition, and an inbound `Array<T>` resolves exactly `T` (storing it and
retyping the `out` port); a binding-bound node whose descriptor is
`UnwrapArrayInput`/`TypeParam(p)` behaves the same way **provided the
inbound port name is absent or equals `p`** — with a non-matching inbound
port name the node ignores the inbound type entirely. -/
theorem C2_array_consumers_require_array (fuel : Nat) (st : FullGraphState)
    (node_id : NodeId) (nd : Node) (sname : Option String)
    (hfind : st.state.graph.findNode node_id = some nd) :
    ((nd.template = .GetArrayElement ∨ nd.template = .ForEach) →
      (∀ t : PulseValueType, t.isArrayValue = false →
        update_polymorphic_output_types (fuel + 1) st node_id (some t) sname =
          .error (.panicked "GetArrayElement or ForEach source type was not an array"))
      ∧
      (∀ (T : PulseValueType) (oid : OutputId),
        nd.get_output "out" = some oid →
        st.state.graph.connections = [] →
        update_polymorphic_output_types (fuel + 1) st node_id
          (some (.PVAL_ARRAY T)) sname =
          .ok ((st.setNodeCustom node_id (some T)).setOutputTyp oid
            (pulse_value_type_to_node_types T).1)))
    ∧
    (∀ (b : Nat) (binding : FunctionBinding) (p : String),
      nd.template = .LibraryBindingAssigned b →
      st.user_state.bindings.find_function_by_id b = some binding →
      binding.polymorphic_return = some (.TypeParam p) →
      (sname = none ∨ sname = some p) →
      (∀ t : PulseValueType, t.isArrayValue = false →
        update_polymorphic_output_types (fuel + 1) st node_id (some t) sname =
          .error (.panicked "polymorphic type parameter was not an array type"))
      ∧
      (st.state.graph.connections = [] →
        ∀ T : PulseValueType,
          update_polymorphic_output_types (fuel + 1) st node_id
            (some (.PVAL_ARRAY T)) sname =
            .ok (st.setNodeCustom node_id (some T)))) := by
  constructor
  · intro htempl
    exact ⟨fun t ht => update_poly_array_consumer_nonarray fuel st node_id nd
        sname t hfind htempl ht,
      fun T oid hout hconn => update_poly_array_consumer_ok fuel st node_id nd
        sname T oid hfind htempl hout hconn⟩
  · intro b binding p htempl hbind hdescr hgate
    exact ⟨fun t ht => update_poly_typeparam_nonarray fuel st node_id nd sname
        b binding p t hfind htempl hbind hdescr hgate ht,
      fun hconn T => update_poly_typeparam_ok fuel st node_id nd sname
        b binding p T hfind htempl hbind hdescr hgate hconn⟩

/-- An array-element getter node with an `out` output port (id 5). -/
def gaNode : Node :=
  { template := .GetArrayElement, inputs := [("array", 4)]
    outputs := [("out", 5)] }

/-- A one-node state around `gaNode`, with no connections. -/
def stGA : FullGraphState :=
  { state :=
      { graph :=
          { nodes := [(0, gaNode)]
            input_params := [(4, ⟨0, .Array, .Array, .ConnectionOnly⟩)]
            output_params := [(5, ⟨0, .Any⟩)], connections := [], next_id := 6 }
        node_sizes := [] }
    user_state := { vars := [], bindings := noBindings, graph_domain := "d", graph_subtype := "s" } }

/-- A catalog binding whose polymorphic-return descriptor is
`UnwrapArrayInput` (`TypeParam "p"`). -/
def bindingTP : FunctionBinding :=
  { id := 7, typ := .Value, displayname := "fn", libname := "fn"
    description := none, inparams := some [], outparams := none
    polymorphic_return := some (.TypeParam "p") }

/-- A binding-bound node tied to `bindingTP`. -/
def tpNode : Node :=
  { template := .LibraryBindingAssigned 7, inputs := [("binding", 0)]
    outputs := [] }

/-- A one-node state around `tpNode`, with `bindingTP` in the catalog. -/
def stTP : FullGraphState :=
  { state :=
      { graph :=
          { nodes := [(0, tpNode)]
            input_params := [(0, ⟨0, .LibraryBindingChoice, .LibraryBindingChoice 7, .ConstantOnly⟩)]
            output_params := [], connections := [], next_id := 1 }
        node_sizes := [] }
    user_state := { vars := [], bindings := ⟨[bindingTP], [], []⟩, graph_domain := "d", graph_subtype := "s" } }

/-- C2 counterexample: a binding-bound `UnwrapArrayInput` (`TypeParam "p"`)
node reached with a present, non-array inbound type through input port
`"q" ≠ "p"` returns `Ok` with the state unchanged — not the fatal
invariant-violation error the claim requires for every present non-array
inbound type. -/
theorem C2_counterexample :
    update_polymorphic_output_types 1 stTP 0 (some (.PVAL_STRING none))
      (some "q") = .ok stTP := rfl

theorem C2_witness :
    (update_polymorphic_output_types 1 stGA 0 (some (.PVAL_STRING none)) none =
      .error (.panicked "GetArrayElement or ForEach source type was not an array")) ∧
    (update_polymorphic_output_types 1 stGA 0
        (some (.PVAL_ARRAY (.PVAL_STRING none))) none =
      .ok ((stGA.setNodeCustom 0 (some (.PVAL_STRING none))).setOutputTyp 5
        (pulse_value_type_to_node_types (.PVAL_STRING none)).1)) ∧
    (update_polymorphic_output_types 1 stTP 0 (some (.PVAL_STRING none))
        (some "p") =
      .error (.panicked "polymorphic type parameter was not an array type")) ∧
    (update_polymorphic_output_types 1 stTP 0
        (some (.PVAL_ARRAY (.PVAL_BOOL_VALUE none))) (some "p") =
      .ok (stTP.setNodeCustom 0 (some (.PVAL_BOOL_VALUE none)))) := by
  refine ⟨?_, ?_, ?_, ?_⟩
  · exact ((C2_array_consumers_require_array 0 stGA 0 gaNode none rfl).1
      (Or.inl rfl)).1 _ rfl
  · exact ((C2_array_consumers_require_array 0 stGA 0 gaNode none rfl).1
      (Or.inl rfl)).2 _ 5 rfl rfl
  · exact ((C2_array_consumers_require_array 0 stTP 0 tpNode (some "p") rfl).2
      7 bindingTP "p" rfl rfl rfl (Or.inr rfl)).1 _ rfl
  · exact ((C2_array_consumers_require_array 0 stTP 0 tpNode (some "p") rfl).2
      7 bindingTP "p" rfl rfl rfl (Or.inr rfl)).2 rfl _

/-! ### C8 -/

theorem update_poly_fulltype_gate_fail (fuel : Nat) (st : FullGraphState)
    (node_id : NodeId) (nd : Node) (source_type : Option PulseValueType)
    (q : String) (b : Nat) (binding : FunctionBinding) (p : String)
    (hfind : st.state.graph.findNode node_id = some nd)
    (htempl : nd.template = .LibraryBindingAssigned b)
    (hbind : st.user_state.bindings.find_function_by_id b = some binding)
    (hdescr : binding.polymorphic_return = some (.FullType p))
    (hne : q ≠ p) :
    update_polymorphic_output_types (fuel + 1) st node_id source_type
      (some q) = .ok st := by
  simp only [update_polymorphic_output_types, hfind]
  rw [show has_polymorhpic_dependent_return nd.template st.user_state = true
    by simp [has_polymorhpic_dependent_return, htempl, hbind, hdescr]]
  simp only [resolve_new_type, htempl, hbind, hdescr]
  rw [if_neg (by simp [hne] :
    ¬ ((some q == some p || some q == (none : Option String)) = true))]
  simp

theorem update_poly_fulltype_gate_pass (fuel : Nat) (st : FullGraphState)
    (node_id : NodeId) (nd : Node) (sname : Option String)
    (b : Nat) (binding : FunctionBinding) (p : String) (t : PulseValueType)
    (hfind : st.state.graph.findNode node_id = some nd)
    (htempl : nd.template = .LibraryBindingAssigned b)
    (hbind : st.user_state.bindings.find_function_by_id b = some binding)
    (hdescr : binding.polymorphic_return = some (.FullType p))
    (hgate : sname = none ∨ sname = some p)
    (hconn : st.state.graph.connections = []) :
    update_polymorphic_output_types (fuel + 1) st node_id (some t) sname =
      .ok (st.setNodeCustom node_id (some t)) := by
  have hg : (sname == some p || sname == none) = true := by
    rcases hgate with h | h <;> simp [h]
  simp only [update_polymorphic_output_types, hfind]
  rw [show has_polymorhpic_dependent_return nd.template st.user_state = true
    by simp [has_polymorhpic_dependent_return, htempl, hbind, hdescr]]
  simp only [resolve_new_type, htempl, hbind, hdescr]
  rw [if_pos hg]
  simp only [findNode_updateNode_self, hfind, Option.map_some']
  simp only [connected_targets_nil _ _ _ (by
    simp [connections_updateNode, hconn] :
      (((st.state.graph.updateNode node_id (fun n =>
          { n with custom_output_type := some t })).updateNode node_id
          (fun n => { n with custom_output_type := some t })).connections = [])),
    List.append_nil, propagate_to_connected]
  rw [updateNode_updateNode]
  simp only [not_true, if_false]
  rfl

theorem update_poly_fulltype_initial_sync (fuel : Nat) (st : FullGraphState)
    (node_id : NodeId) (nd : Node) (sname : Option String)
    (b : Nat) (binding : FunctionBinding) (p : String)
    (hfind : st.state.graph.findNode node_id = some nd)
    (htempl : nd.template = .LibraryBindingAssigned b)
    (hbind : st.user_state.bindings.find_function_by_id b = some binding)
    (hdescr : binding.polymorphic_return = some (.FullType p))
    (hgate : sname = none ∨ sname = some p)
    (hconn : st.state.graph.connections = []) :
    update_polymorphic_output_types (fuel + 1) st node_id none sname =
      .ok (st.setNodeCustom node_id nd.custom_output_type) := by
  have hg : (sname == some p || sname == none) = true := by
    rcases hgate with h | h <;> simp [h]
  simp only [update_polymorphic_output_types, hfind]
  rw [show has_polymorhpic_dependent_return nd.template st.user_state = true
    by simp [has_polymorhpic_dependent_return, htempl, hbind, hdescr]]
  simp only [resolve_new_type, htempl, hbind, hdescr]
  rw [if_pos hg]
  cases hc : nd.custom_output_type with
  | none =>
    simp only [hc]
    simp only [not_true, if_false]
    rfl
  | some c =>
    simp only [hc]
    simp only [findNode_updateNode_self, hfind, Option.map_some']
    simp only [connected_targets_nil _ _ _ (by
      simp [connections_updateNode, hconn] :
        (((st.state.graph.updateNode node_id (fun n =>
            { n with custom_output_type := some c })).updateNode node_id
            (fun n => { n with custom_output_type := some c })).connections = [])),
      List.append_nil, propagate_to_connected]
    rw [updateNode_updateNode]
    simp only [not_true, if_false]
    rfl

/-- C8 (amended): a binding-bound `MirrorInput(p)` (`FullType`) node: when
the inbound port name is present and differs from `p`, the node is left
unchanged and nothing propagates; when the gate passes (inbound port name
absent or equal to `p`), the node stores the *effective* type — the
inbound type when present, otherwise its own previously stored output
type — and that effective type (not necessarily the inbound one) is what
is resolved and propagated. -/
theorem C8_mirror_input_resolution (fuel : Nat) (st : FullGraphState)
    (node_id : NodeId) (nd : Node) (b : Nat) (binding : FunctionBinding)
    (p : String)
    (hfind : st.state.graph.findNode node_id = some nd)
    (htempl : nd.template = .LibraryBindingAssigned b)
    (hbind : st.user_state.bindings.find_function_by_id b = some binding)
    (hdescr : binding.polymorphic_return = some (.FullType p)) :
    (∀ (q : String) (source_type : Option PulseValueType), q ≠ p →
      update_polymorphic_output_types (fuel + 1) st node_id source_type
        (some q) = .ok st)
    ∧
    (∀ (sname : Option String) (t : PulseValueType),
      (sname = none ∨ sname = some p) →
      st.state.graph.connections = [] →
      update_polymorphic_output_types (fuel + 1) st node_id (some t) sname =
        .ok (st.setNodeCustom node_id (some t)))
    ∧
    (∀ sname : Option String,
      (sname = none ∨ sname = some p) →
      st.state.graph.connections = [] →
      update_polymorphic_output_types (fuel + 1) st node_id none sname =
        .ok (st.setNodeCustom node_id nd.custom_output_type)) :=
  ⟨fun q source_type hne => update_poly_fulltype_gate_fail fuel st node_id nd
      source_type q b binding p hfind htempl hbind hdescr hne,
    fun sname t hgate hconn => update_poly_fulltype_gate_pass fuel st node_id
      nd sname b binding p t hfind htempl hbind hdescr hgate hconn,
    fun sname hgate hconn => update_poly_fulltype_initial_sync fuel st node_id
      nd sname b binding p hfind htempl hbind hdescr hgate hconn⟩

/-- A catalog binding whose polymorphic-return descriptor is
`MirrorInput` (`FullType "p"`). -/
def bindingFT : FunctionBinding :=
  { id := 8, typ := .Value, displayname := "fn", libname := "fn"
    description := none, inparams := some [], outparams := none
    polymorphic_return := some (.FullType "p") }

/-- A binding-bound `MirrorInput` node that already stores
`Array<String>` as its resolved output type, fanning out of `retval`. -/
def ftNode : Node :=
  { template := .LibraryBindingAssigned 8, inputs := [("binding", 0)]
    outputs := [("retval", 1)]
    custom_output_type := some (.PVAL_ARRAY (.PVAL_STRING none)) }

/-- A downstream for-each node fed through its `array` input. -/
def feNode : Node :=
  { template := .ForEach, inputs := [("array", 2)], outputs := [("out", 3)] }

/-- The two nodes wired `ftNode.retval → feNode.array`. -/
def stFT : FullGraphState :=
  { state :=
      { graph :=
          { nodes := [(0, ftNode), (1, feNode)]
            input_params := [(0, ⟨0, .LibraryBindingChoice, .LibraryBindingChoice 8, .ConstantOnly⟩),
                             (2, ⟨1, .Array, .Array, .ConnectionOnly⟩)]
            output_params := [(1, ⟨0, .Array⟩), (3, ⟨1, .Any⟩)]
            connections := [(2, 1)], next_id := 4 }
        node_sizes := [] }
    user_state := { vars := [], bindings := ⟨[bindingFT], [], []⟩, graph_domain := "d", graph_subtype := "s" } }

/-- C8 counterexample: with the inbound port name and inbound type both
absent, the `MirrorInput` node still resolves its stored `Array<String>`
and propagates it, driving the downstream for-each node to `String` — a
resolution whose type is not "exactly the inbound type", which is absent. -/
theorem C8_counterexample :
    (update_polymorphic_output_types 2 stFT 0 none none).toOption.map
      (fun st' => (st'.nodeCustom 0, st'.nodeCustom 1, st'.outputTyp 3)) =
      some (some (some (.PVAL_ARRAY (.PVAL_STRING none))),
        some (some (.PVAL_STRING none)), some .String) := rfl

/-- The `MirrorInput` node alone, with no connections. -/
def stFTsink : FullGraphState :=
  { state :=
      { graph :=
          { nodes := [(0, ftNode)]
            input_params := [(0, ⟨0, .LibraryBindingChoice, .LibraryBindingChoice 8, .ConstantOnly⟩)]
            output_params := [(1, ⟨0, .Array⟩)]
            connections := [], next_id := 4 }
        node_sizes := [] }
    user_state := { vars := [], bindings := ⟨[bindingFT], [], []⟩, graph_domain := "d", graph_subtype := "s" } }

theorem C8_witness :
    (update_polymorphic_output_types 1 stFTsink 0
        (some (.PVAL_BOOL_VALUE none)) (some "q") = .ok stFTsink) ∧
    (update_polymorphic_output_types 1 stFTsink 0
        (some (.PVAL_BOOL_VALUE none)) (some "p") =
      .ok (stFTsink.setNodeCustom 0 (some (.PVAL_BOOL_VALUE none)))) ∧
    (update_polymorphic_output_types 1 stFTsink 0 none none =
      .ok (stFTsink.setNodeCustom 0 ftNode.custom_output_type)) := by
  refine ⟨?_, ?_, ?_⟩
  · exact (C8_mirror_input_resolution 0 stFTsink 0 ftNode 8 bindingFT "p"
      rfl rfl rfl rfl).1 "q" _ (by decide)
  · exact (C8_mirror_input_resolution 0 stFTsink 0 ftNode 8 bindingFT "p"
      rfl rfl rfl rfl).2.1 (some "p") _ (Or.inr rfl) rfl
  · exact (C8_mirror_input_resolution 0 stFTsink 0 ftNode 8 bindingFT "p"
      rfl rfl rfl rfl).2.2 none (Or.inl rfl) rfl

/-! ### C9 -/

/-- C9: a binding-bound node whose descriptor is `ToDeclaredSubtype` never
reads the inbound type or inbound port name: for every inbound pair the
result is the same, namely the binding's own declared `retval` output
parameter type when one exists and otherwise the fixed fallback
array-of-entity-handles. -/
theorem C9_to_subtype_ignores_inbound (fuel : Nat) (st : FullGraphState)
    (node_id : NodeId) (nd : Node) (b : Nat) (binding : FunctionBinding)
    (q : String)
    (hfind : st.state.graph.findNode node_id = some nd)
    (htempl : nd.template = .LibraryBindingAssigned b)
    (hbind : st.user_state.bindings.find_function_by_id b = some binding)
    (hdescr : binding.polymorphic_return = some (.ToSubtype q))
    (hconn : st.state.graph.connections = []) :
    ∀ (source_type : Option PulseValueType) (sname : Option String),
      update_polymorphic_output_types (fuel + 1) st node_id source_type
        sname =
        .ok (st.setNodeCustom node_id (some
          (match binding.find_outparam_by_name "retval" with
            | some param => param.pulsetype
            | none => .PVAL_ARRAY (.PVAL_EHANDLE none)))) := by
  intro source_type sname
  simp only [update_polymorphic_output_types, hfind]
  rw [show has_polymorhpic_dependent_return nd.template st.user_state = true
    by simp [has_polymorhpic_dependent_return, htempl, hbind, hdescr]]
  simp only [resolve_new_type, htempl, hbind, hdescr]
  cases hrv : binding.find_outparam_by_name "retval" with
  | some param =>
    simp only [hrv]
    simp only [findNode_updateNode_self, hfind, Option.map_some']
    simp only [connected_targets_nil _ _ _ (by
      simp [connections_updateNode, hconn] :
        ((st.state.graph.updateNode node_id (fun n =>
          { n with custom_output_type := some param.pulsetype })).connections = [])),
      List.append_nil, propagate_to_connected]
    simp only [not_true, if_false]
    rfl
  | none =>
    simp only [hrv]
    simp only [findNode_updateNode_self, hfind, Option.map_some']
    simp only [connected_targets_nil _ _ _ (by
      simp [connections_updateNode, hconn] :
        ((st.state.graph.updateNode node_id (fun n =>
          { n with custom_output_type := some (PulseValueType.PVAL_ARRAY (PulseValueType.PVAL_EHANDLE none)) })).connections = [])),
      List.append_nil, propagate_to_connected]
    simp only [not_true, if_false]
    rfl

/-- A catalog binding with a `ToDeclaredSubtype` descriptor and a declared
`retval` output parameter of entity-handle type. -/
def bindingTS : FunctionBinding :=
  { id := 9, typ := .Value, displayname := "fn", libname := "fn"
    description := none, inparams := some []
    outparams := some [{ name := "retval", typ := ""
                         pulsetype := .PVAL_EHANDLE none
                         polymorphic_arg := none }]
    polymorphic_return := some (.ToSubtype "p") }

/-- A binding-bound node tied to `bindingTS`. -/
def tsNode : Node :=
  { template := .LibraryBindingAssigned 9, inputs := [("binding", 0)]
    outputs := [("retval", 1)] }

/-- The `ToDeclaredSubtype` node alone, with no connections. -/
def stTS : FullGraphState :=
  { state :=
      { graph :=
          { nodes := [(0, tsNode)]
            input_params := [(0, ⟨0, .LibraryBindingChoice, .LibraryBindingChoice 9, .ConstantOnly⟩)]
            output_params := [(1, ⟨0, .EHandle⟩)]
            connections := [], next_id := 2 }
        node_sizes := [] }
    user_state := { vars := [], bindings := ⟨[bindingTS], [], []⟩, graph_domain := "d", graph_subtype := "s" } }

theorem C9_witness :
    (update_polymorphic_output_types 1 stTS 0 (some (.PVAL_STRING none))
        (some "x") = .ok (stTS.setNodeCustom 0 (some (.PVAL_EHANDLE none)))) ∧
    (update_polymorphic_output_types 1 stTS 0 none none =
      .ok (stTS.setNodeCustom 0 (some (.PVAL_EHANDLE none)))) :=
  ⟨C9_to_subtype_ignores_inbound 0 stTS 0 tsNode 9 bindingTS "p"
      rfl rfl rfl rfl rfl (some (.PVAL_STRING none)) (some "x"),
    C9_to_subtype_ignores_inbound 0 stTS 0 tsNode 9 bindingTS "p"
      rfl rfl rfl rfl rfl none none⟩

/-! ### C1 -/

/-- A catalog binding mirroring its `array` input (`FullType "array"`). -/
def bindingMirror : FunctionBinding :=
  { id := 11, typ := .Value, displayname := "fn", libname := "fn"
    description := none, inparams := some [], outparams := none
    polymorphic_return := some (.FullType "array") }

/-- A load-variable node for the variable `v`, with its canonical `value`
output at port 1. -/
def c1GetVarNode : Node :=
  { template := .GetVar, inputs := [("variableName", 0)]
    outputs := [("value", 1)] }

/-- A binding-bound node for `bindingMirror`, receiving on its `array`
input (port 2). -/
def c1MirrorNode : Node :=
  { template := .LibraryBindingAssigned 11
    inputs := [("binding", 3), ("array", 2)], outputs := [] }

/-- A for-each node receiving on its `array` input (port 4), with an `out`
output at port 5. -/
def c1ForEachNode : Node :=
  { template := .ForEach, inputs := [("array", 4)], outputs := [("out", 5)] }

/-- A three-node chain: a load-variable node for `v : Array<T>` whose
`value` output (port 1, category `Any`) fans out into a `MirrorInput`
binding node (via its `array` input) and a for-each node (via its `array`
input, with an `out` output, port 5). -/
def stC1chain (T : PulseValueType) : FullGraphState :=
  { state :=
      { graph :=
          { nodes := [(0, c1GetVarNode), (1, c1MirrorNode), (2, c1ForEachNode)]
            input_params := [
              (0, ⟨0, .InternalVariableName, .InternalVariableName "" "v", .ConstantOnly⟩),
              (3, ⟨1, .LibraryBindingChoice, .LibraryBindingChoice 11, .ConstantOnly⟩),
              (2, ⟨1, .Array, .Array, .ConnectionOnly⟩),
              (4, ⟨2, .Array, .Array, .ConnectionOnly⟩)]
            output_params := [(1, ⟨0, .Any⟩), (5, ⟨2, .Any⟩)]
            connections := [(2, 1), (4, 1)]
            next_id := 6 }
        node_sizes := [] }
    user_state :=
      { vars := [⟨"v", .PVAL_ARRAY T, .Array, ""⟩]
        bindings := ⟨[bindingMirror], [], []⟩
        graph_domain := "d", graph_subtype := "s" } }

/-- C1 counterexample: the load-variable node resolves `Array<String>` and
stores it, but the coarse category of its canonical `value` output port is
left at `Any` — the engine does not update it to the category of the new
type (`Array`), contradicting step (2) of the claim. -/
theorem C1_counterexample :
    ((update_polymorphic_output_types 3 (stC1chain (.PVAL_STRING none)) 0
        none none).toOption.map
      (fun st' => (st'.nodeCustom 0, st'.outputTyp 1)) =
      some (some (some (.PVAL_ARRAY (.PVAL_STRING none))), some .Any)) ∧
    (pulse_value_type_to_node_types (.PVAL_ARRAY (.PVAL_STRING none))).1 =
      .Array := ⟨rfl, rfl⟩

/-- The shape of a node entry: its identity and every field except the
resolved output type. -/
def nodeShape (p : NodeId × Node) :
    NodeId × PulseNodeTemplate × List (String × InputId) ×
      List (String × OutputId) × List InputId :=
  (p.1, p.2.template, p.2.inputs, p.2.outputs, p.2.added_inputs)

/-- `oid` is the canonical `out` output port of an array-consumer
(array-element getter or for-each) node of the state. -/
def arrayConsumerOutPort (st : FullGraphState) (oid : OutputId) : Prop :=
  ∃ p ∈ st.state.graph.nodes,
    (p.2.template = PulseNodeTemplate.GetArrayElement ∨
      p.2.template = PulseNodeTemplate.ForEach) ∧
    p.2.get_output "out" = some oid

/-- What a propagator run may change.  User state, node sizes, input
parameters, connections, fresh-id counter and every node's shape (identity,
template, port lists) are untouched; the output-parameter list keeps its
length, and each output parameter keeps its identity, its owning node and —
unless it is the `out` port of an array-consumer node — its declared
category. -/
structure StructuralFrame (st st' : FullGraphState) : Prop where
  user_eq : st'.user_state = st.user_state
  sizes_eq : st'.state.node_sizes = st.state.node_sizes
  inputs_eq : st'.state.graph.input_params = st.state.graph.input_params
  conns_eq : st'.state.graph.connections = st.state.graph.connections
  next_eq : st'.state.graph.next_id = st.state.graph.next_id
  shape_eq : st'.state.graph.nodes.map nodeShape =
    st.state.graph.nodes.map nodeShape
  out_len : st'.state.graph.output_params.length =
    st.state.graph.output_params.length
  out_frame : ∀ (i : Nat) (q q' : OutputId × OutputParam),
    st.state.graph.output_params[i]? = some q →
    st'.state.graph.output_params[i]? = some q' →
    q'.1 = q.1 ∧ q'.2.node = q.2.node ∧
      (q'.2.typ = q.2.typ ∨ arrayConsumerOutPort st q.1)

theorem structuralFrame_refl (st : FullGraphState) : StructuralFrame st st := by
  refine ⟨rfl, rfl, rfl, rfl, rfl, rfl, rfl, ?_⟩
  intro i q q' hq hq'
  have h := Option.some.inj (hq.symm.trans hq')
  subst h
  exact ⟨rfl, rfl, Or.inl rfl⟩

/-- An array-consumer `out` port is determined by the node shapes alone, so
it transfers across any shape-preserving state change. -/
theorem arrayConsumerOutPort_of_shape_eq {s1 s2 : FullGraphState}
    (h : s2.state.graph.nodes.map nodeShape =
      s1.state.graph.nodes.map nodeShape)
    {oid : OutputId} (hp : arrayConsumerOutPort s2 oid) :
    arrayConsumerOutPort s1 oid := by
  obtain ⟨p, hmem, htempl, hout⟩ := hp
  have hm : nodeShape p ∈ s1.state.graph.nodes.map nodeShape := by
    rw [← h]
    exact List.mem_map_of_mem nodeShape hmem
  obtain ⟨q, hqmem, hq⟩ := List.mem_map.mp hm
  have htq : q.2.template = p.2.template := congrArg (fun t => t.2.1) hq
  have hoq : q.2.outputs = p.2.outputs := congrArg (fun t => t.2.2.2.1) hq
  refine ⟨q, hqmem, ?_, ?_⟩
  · rw [htq]
    exact htempl
  · show (q.2.outputs.find? (fun r => r.1 == "out")).map (fun r => r.2) =
      some oid
    rw [hoq]
    exact hout

theorem StructuralFrame.trans {s1 s2 s3 : FullGraphState}
    (f12 : StructuralFrame s1 s2) (f23 : StructuralFrame s2 s3) :
    StructuralFrame s1 s3 := by
  refine ⟨f23.user_eq.trans f12.user_eq, f23.sizes_eq.trans f12.sizes_eq,
    f23.inputs_eq.trans f12.inputs_eq, f23.conns_eq.trans f12.conns_eq,
    f23.next_eq.trans f12.next_eq, f23.shape_eq.trans f12.shape_eq,
    f23.out_len.trans f12.out_len, ?_⟩
  intro i q q'' hq hq''
  have hlt1 : i < s1.state.graph.output_params.length := by
    rcases List.getElem?_eq_some_iff.mp hq with ⟨hh, _⟩
    exact hh
  have hlt2 : i < s2.state.graph.output_params.length := by
    rw [f12.out_len]
    exact hlt1
  have hq2 : s2.state.graph.output_params[i]? =
      some (s2.state.graph.output_params[i]) := List.getElem?_eq_getElem hlt2
  obtain ⟨h12k, h12n, h12t⟩ := f12.out_frame i q _ hq hq2
  obtain ⟨h23k, h23n, h23t⟩ := f23.out_frame i _ q'' hq2 hq''
  refine ⟨h23k.trans h12k, h23n.trans h12n, ?_⟩
  rcases h23t with h23t | h23e
  · rcases h12t with h12t | h12e
    · exact Or.inl (h23t.trans h12t)
    · exact Or.inr h12e
  · refine Or.inr ?_
    have hx := arrayConsumerOutPort_of_shape_eq f12.shape_eq h23e
    rw [h12k] at hx
    exact hx

/-- Storing a resolved output type on one node is a frame-respecting step. -/
theorem frame_setNodeCustom (st : FullGraphState) (nid : NodeId)
    (v : Option PulseValueType) :
    StructuralFrame st (st.setNodeCustom nid v) := by
  refine ⟨rfl, rfl, rfl, rfl, rfl, ?_, rfl, ?_⟩
  · simp only [FullGraphState.setNodeCustom, Graph.updateNode, List.map_map]
    apply List.map_congr_left
    intro p _
    by_cases h : (p.1 == nid) = true <;> simp [Function.comp, nodeShape, h]
  · intro i q q' hq hq'
    have h := Option.some.inj (hq.symm.trans hq')
    subst h
    exact ⟨rfl, rfl, Or.inl rfl⟩

/-- Overwriting the declared category of an array-consumer `out` port is a
frame-respecting step. -/
theorem frame_setOutputTyp (st : FullGraphState) (oid : OutputId)
    (t : PulseDataType) (hport : arrayConsumerOutPort st oid) :
    StructuralFrame st (st.setOutputTyp oid t) := by
  refine ⟨rfl, rfl, rfl, rfl, rfl, rfl, by
    simp [FullGraphState.setOutputTyp, Graph.updateOutputParam], ?_⟩
  intro i q q' hq hq'
  have hmap : (st.state.graph.output_params.map
      (fun p => if p.1 == oid then (p.1, { p.2 with typ := t }) else p))[i]? =
      some q' := hq'
  rw [List.getElem?_map, hq] at hmap
  simp only [Option.map_some'] at hmap
  have h := Option.some.inj hmap
  by_cases hk : (q.1 == oid) = true
  · have hq'v : q' = (q.1, { q.2 with typ := t }) := by
      rw [← h, if_pos hk]
    subst hq'v
    refine ⟨rfl, rfl, Or.inr ?_⟩
    have hko : q.1 = oid := by simpa using hk
    rw [hko]
    exact hport
  · have hq'v : q' = q := by
      rw [← h, if_neg hk]
    subst hq'v
    exact ⟨rfl, rfl, Or.inl rfl⟩

/-- A keyed find over a list with the same shapes finds an entry with the
same shape. -/
theorem find?_key_of_shape_eq (nid : NodeId) (l l2 : List (NodeId × Node))
    (h : l2.map nodeShape = l.map nodeShape) (p : NodeId × Node)
    (hp : l.find? (fun r => r.1 == nid) = some p) :
    ∃ p2, l2.find? (fun r => r.1 == nid) = some p2 ∧
      nodeShape p2 = nodeShape p := by
  revert hp
  induction l generalizing l2 with
  | nil =>
    intro hp
    simp at hp
  | cons x xs ih =>
    intro hp
    cases l2 with
    | nil => simp at h
    | cons y ys =>
      simp only [List.map_cons, List.cons.injEq] at h
      obtain ⟨hxy, hrest⟩ := h
      have hkey : y.1 = x.1 := congrArg (fun t => t.1) hxy
      by_cases hx : (x.1 == nid) = true
      · simp only [List.find?_cons, hx] at hp
        have hpx := Option.some.inj hp
        subst hpx
        refine ⟨y, ?_, hxy⟩
        have hy : (y.1 == nid) = true := by rw [hkey]; exact hx
        simp only [List.find?_cons, hy]
      · have hxf : (x.1 == nid) = false := by simpa using hx
        simp only [List.find?_cons, hxf] at hp
        obtain ⟨p2, hp2, hsh⟩ := ih ys hrest hp
        have hyf : (y.1 == nid) = false := by rw [hkey]; exact hxf
        refine ⟨p2, ?_, hsh⟩
        simp only [List.find?_cons, hyf]
        exact hp2

/-- After storing a type on a node found to be an array consumer, its `out`
port is an array-consumer `out` port of the updated state. -/
theorem arrayConsumerOutPort_setCustom (st : FullGraphState)
    (node_id : NodeId) (nd : Node) (v : Option PulseValueType)
    (out_id : OutputId)
    (hfind : st.state.graph.findNode node_id = some nd)
    (htempl : nd.template = PulseNodeTemplate.GetArrayElement ∨
      nd.template = PulseNodeTemplate.ForEach)
    (hout : nd.get_output "out" = some out_id) :
    arrayConsumerOutPort (st.setNodeCustom node_id v) out_id := by
  obtain ⟨pr, hpr, hpr2⟩ := Option.map_eq_some'.mp hfind
  have hpred0 := List.find?_some hpr
  have hpred : (pr.1 == node_id) = true := hpred0
  have hmem : pr ∈ st.state.graph.nodes := List.mem_of_find?_eq_some hpr
  refine ⟨(pr.1, { pr.2 with custom_output_type := v }), ?_, ?_, ?_⟩
  · have hmm := List.mem_map_of_mem
      (fun p => if p.1 == node_id then
        (p.1, { p.2 with custom_output_type := v }) else p) hmem
    simp only [if_pos hpred] at hmm
    exact hmm
  · rw [hpr2]
    exact htempl
  · rw [hpr2]
    exact hout

/-- Combined frame step for the array-consumer resolution branch: store the
element type, then retype the node's own `out` port. -/
theorem frame_setCustom_setOutputTyp (st : FullGraphState)
    (node_id : NodeId) (nd : Node) (inner : PulseValueType)
    (out_id : OutputId)
    (hfind : st.state.graph.findNode node_id = some nd)
    (htempl : nd.template = PulseNodeTemplate.GetArrayElement ∨
      nd.template = PulseNodeTemplate.ForEach)
    (hout : nd.get_output "out" = some out_id) :
    StructuralFrame st
      ((st.setNodeCustom node_id (some inner)).setOutputTyp out_id
        (pulse_value_type_to_node_types inner).1) :=
  StructuralFrame.trans (frame_setNodeCustom st node_id (some inner))
    (frame_setOutputTyp (st.setNodeCustom node_id (some inner)) out_id
      (pulse_value_type_to_node_types inner).1
      (arrayConsumerOutPort_setCustom st node_id nd (some inner) out_id
        hfind htempl hout))

/-- The per-template resolution block respects the structural frame: its
only output-parameter mutation is the array-consumer branch retyping its
own `out` port. -/
theorem resolve_new_type_frame (st : FullGraphState) (node_id : NodeId)
    (nd : Node) (stype : Option PulseValueType) (sname : Option String)
    (st1 : FullGraphState) (opt : Option PulseValueType)
    (hfind : st.state.graph.findNode node_id = some nd)
    (h : resolve_new_type st node_id nd stype sname = .ok (st1, opt)) :
    StructuralFrame st st1 := by
  unfold resolve_new_type at h
  repeat'
    first
    | split at h
    | simp only [Except.ok.injEq, Prod.mk.injEq] at h
  all_goals
    first
    | exact Except.noConfusion h
    | (obtain ⟨h1, h2⟩ := h
       subst h1
       first
       | exact structuralFrame_refl st
       | exact frame_setNodeCustom st node_id _
       | exact frame_setCustom_setOutputTyp st node_id nd _ _ hfind
           (Or.inl (by assumption)) (by assumption)
       | exact frame_setCustom_setOutputTyp st node_id nd _ _ hfind
           (Or.inr (by assumption)) (by assumption))

/-- The propagation loop respects the structural frame whenever the step
function does. -/
theorem propagate_to_connected_frame
    (step : FullGraphState → NodeId → Option PulseValueType → Option String →
      Except PropError FullGraphState)
    (hstep : ∀ s n t m s', step s n t m = .ok s' → StructuralFrame s s')
    (T : Option PulseValueType) (targets : List (NodeId × String)) :
    ∀ (st st' : FullGraphState),
      propagate_to_connected step T st targets = .ok st' →
      StructuralFrame st st' := by
  induction targets with
  | nil =>
    intro st st' h
    simp only [propagate_to_connected] at h
    injection h with h1
    subst h1
    exact structuralFrame_refl st
  | cons p rest ih =>
    intro st st' h
    obtain ⟨nid, nm⟩ := p
    simp only [propagate_to_connected] at h
    cases hs : step st nid T (some nm) with
    | error e =>
      rw [hs] at h
      exact Except.noConfusion h
    | ok s1 =>
      rw [hs] at h
      exact StructuralFrame.trans (hstep st nid T (some nm) s1 hs)
        (ih s1 st' h)

/-- The whole propagator respects the structural frame, at every fuel, on
every state: a successful run changes nothing but stored output types and
the categories of array-consumer `out` ports. -/
theorem update_poly_structural_frame (fuel : Nat) :
    ∀ (st : FullGraphState) (node_id : NodeId)
      (stype : Option PulseValueType) (sname : Option String)
      (st' : FullGraphState),
      update_polymorphic_output_types fuel st node_id stype sname = .ok st' →
      StructuralFrame st st' := by
  induction fuel with
  | zero =>
    intro st node_id stype sname st' h
    exact Except.noConfusion h
  | succ f ih =>
    intro st node_id stype sname st' h
    simp only [update_polymorphic_output_types] at h
    split at h
    · exact Except.noConfusion h
    · rename_i nd hfind
      split at h
      · injection h with h1
        subst h1
        exact structuralFrame_refl st
      · split at h
        · exact Except.noConfusion h
        · rename_i st1 opt hres
          split at h
          · injection h with h1
            subst h1
            exact resolve_new_type_frame st node_id nd stype sname st1 none
              hfind hres
          · rename_i t
            split at h
            · exact Except.noConfusion h
            · rename_i n2 hfind2
              have hf1 : StructuralFrame st st1 :=
                resolve_new_type_frame st node_id nd stype sname st1 (some t)
                  hfind hres
              have hf2 : StructuralFrame st1
                  (st1.setNodeCustom node_id (some t)) :=
                frame_setNodeCustom st1 node_id (some t)
              have hf3 := propagate_to_connected_frame
                (fun s n ty m => update_polymorphic_output_types f s n ty m)
                (fun s n ty m s' hh => ih s n ty m s' hh) (some t) _ _ _ h
              exact StructuralFrame.trans (StructuralFrame.trans hf1 hf2) hf3

/-- The list of recursion targets the propagator visits after a resolution:
for each of the node's `out`, `retval` and `value` outputs, every connected
downstream node paired with the name of its receiving input port. -/
def connectedTargets (st : FullGraphState) (nid : NodeId) :
    List (NodeId × String) :=
  match st.state.graph.findNode nid with
  | none => []
  | some n =>
    (get_node_ids_connected_to_output n st.state.graph "out").getD [] ++
    (get_node_ids_connected_to_output n st.state.graph "retval").getD [] ++
    (get_node_ids_connected_to_output n st.state.graph "value").getD []

/-- Membership in one connected-target list, characterised: exactly the
owning nodes of the input ports wired to the named output, paired with the
receiving ports' names. -/
theorem get_node_ids_connected_mem (n : Node) (g : Graph) (name : String)
    (m : NodeId) (nm : String) :
    (m, nm) ∈ (get_node_ids_connected_to_output n g name).getD [] ↔
      ∃ oid, n.get_output name = some oid ∧
      ∃ iid, (iid, oid) ∈ g.connections ∧
      ∃ ip, g.getInputParam iid = some ip ∧ ip.node = m ∧
      ∃ tn, g.findNode m = some tn ∧
        (tn.inputs.find? (fun q => q.2 == iid)).map (fun q => q.1) =
          some nm := by
  unfold get_node_ids_connected_to_output
  cases hget : n.get_output name with
  | none => simp
  | some oid =>
    simp only [Option.getD_some, List.mem_filterMap, Option.some.injEq]
    constructor
    · rintro ⟨c, hc, hfc⟩
      split at hfc
      · rename_i hb
        split at hfc
        · exact Option.noConfusion hfc
        · rename_i ip hip
          split at hfc
          · exact Option.noConfusion hfc
          · rename_i tn hfn
            cases hfq : tn.inputs.find? (fun q => q.2 == c.1) with
            | none =>
              rw [hfq] at hfc
              exact Option.noConfusion hfc
            | some q =>
              rw [hfq, Option.map_some'] at hfc
              have hpair := Option.some.inj hfc
              have h1 : ip.node = m := congrArg (fun r => r.1) hpair
              have h2 : q.1 = nm := congrArg (fun r => r.2) hpair
              have hco : c.2 = oid := by simpa using hb
              refine ⟨oid, rfl, c.1, ?_, ip, hip, h1, tn, ?_, ?_⟩
              · rw [← hco]
                exact hc
              · rw [← h1]
                exact hfn
              · rw [hfq, Option.map_some', h2]
      · exact Option.noConfusion hfc
    · rintro ⟨oid2, hoid2, iid, hconn, ip, hip, hnode, tn, hfn, hmap⟩
      subst hoid2
      refine ⟨(iid, oid), hconn, ?_⟩
      cases hfq : tn.inputs.find? (fun q => q.2 == iid) with
      | none =>
        rw [hfq] at hmap
        exact Option.noConfusion hmap
      | some q =>
        rw [hfq, Option.map_some'] at hmap
        have hq1 : q.1 = nm := Option.some.inj hmap
        simp only [beq_self_eq_true, if_true, hip, hnode, hfn, hfq,
          Option.map_some', hq1]

/-- Membership in the full recursion-target list: a pair `(m, nm)` is
visited exactly when node `m` has an input port named `nm` wired to the
resolving node's `out`, `retval` or `value` output. -/
theorem connectedTargets_mem_iff (st : FullGraphState) (node_id : NodeId)
    (n : Node) (hfind : st.state.graph.findNode node_id = some n)
    (m : NodeId) (nm : String) :
    (m, nm) ∈ connectedTargets st node_id ↔
      ∃ cname, (cname = "out" ∨ cname = "retval" ∨ cname = "value") ∧
      ∃ oid, n.get_output cname = some oid ∧
      ∃ iid, (iid, oid) ∈ st.state.graph.connections ∧
      ∃ ip, st.state.graph.getInputParam iid = some ip ∧ ip.node = m ∧
      ∃ tn, st.state.graph.findNode m = some tn ∧
        (tn.inputs.find? (fun q => q.2 == iid)).map (fun q => q.1) =
          some nm := by
  simp only [connectedTargets, hfind, List.mem_append,
    get_node_ids_connected_mem]
  constructor
  · rintro ((h | h) | h)
    exacts [⟨"out", Or.inl rfl, h⟩, ⟨"retval", Or.inr (Or.inl rfl), h⟩,
      ⟨"value", Or.inr (Or.inr rfl), h⟩]
  · rintro ⟨cname, (rfl | rfl | rfl), h⟩
    exacts [Or.inl (Or.inl h), Or.inl (Or.inr h), Or.inr h]

/-- When the resolution block yields a new concrete type, one propagator
step stores it on the node and hands the stored state to the propagation
loop over exactly the connected-target list. -/
theorem update_poly_resolution_step (fuel : Nat) (st : FullGraphState)
    (node_id : NodeId) (stype : Option PulseValueType)
    (sname : Option String) (nd : Node) (T : PulseValueType)
    (st1 : FullGraphState)
    (hfind : st.state.graph.findNode node_id = some nd)
    (hpoly : has_polymorhpic_dependent_return nd.template st.user_state = true)
    (hres : resolve_new_type st node_id nd stype sname = .ok (st1, some T)) :
    ∃ st2 : FullGraphState,
      update_polymorphic_output_types (fuel + 1) st node_id stype sname =
        propagate_to_connected
          (fun s n t m => update_polymorphic_output_types fuel s n t m)
          (some T) st2 (connectedTargets st2 node_id) ∧
      st2.nodeCustom node_id = some (some T) ∧
      StructuralFrame st st2 := by
  have hframe1 : StructuralFrame st st1 :=
    resolve_new_type_frame st node_id nd stype sname st1 (some T) hfind hres
  obtain ⟨pr, hpr, hpr2⟩ := Option.map_eq_some'.mp hfind
  obtain ⟨p2, hp2, hsh⟩ := find?_key_of_shape_eq node_id
    st.state.graph.nodes st1.state.graph.nodes hframe1.shape_eq pr hpr
  have hfind1 : st1.state.graph.findNode node_id = some p2.2 := by
    unfold Graph.findNode
    rw [hp2]
    rfl
  refine ⟨st1.setNodeCustom node_id (some T), ?_, ?_, ?_⟩
  · simp only [update_polymorphic_output_types, hfind]
    rw [show has_polymorhpic_dependent_return nd.template st.user_state = true
      from hpoly]
    simp only [hres]
    simp only [connectedTargets, FullGraphState.setNodeCustom,
      findNode_updateNode_self, hfind1, Option.map_some']
    simp only [not_true, if_false]
  · simp only [FullGraphState.nodeCustom, FullGraphState.setNodeCustom,
      findNode_updateNode_self, hfind1, Option.map_some']
  · exact StructuralFrame.trans hframe1
      (frame_setNodeCustom st1 node_id (some T))

/-- C1 (amended): (1) whenever the per-template resolution block yields a
new concrete type, the propagator stores it as the node's resolved output
type and hands the stored state to the propagation loop over exactly the
recursion-target list — (3) which contains precisely the nodes whose input
ports are currently wired to the node's `out`, `retval` or `value` outputs,
each paired with the receiving input-port name that the loop passes on —
while (2) the generic step updates no output-port category: a successful
propagator run, at any fuel, on any state, leaves every output parameter's
identity, owner and category unchanged except the category of an
array-consumer (`GetArrayElement`/`ForEach`) `out` port, and touches
nothing else but stored output types. -/
theorem C1_propagation_stores_and_recurses :
    (∀ (fuel : Nat) (st : FullGraphState) (node_id : NodeId)
       (stype : Option PulseValueType) (sname : Option String)
       (nd : Node) (T : PulseValueType) (st1 : FullGraphState),
       st.state.graph.findNode node_id = some nd →
       has_polymorhpic_dependent_return nd.template st.user_state = true →
       resolve_new_type st node_id nd stype sname = .ok (st1, some T) →
       ∃ st2 : FullGraphState,
         update_polymorphic_output_types (fuel + 1) st node_id stype sname =
           propagate_to_connected
             (fun s n t m => update_polymorphic_output_types fuel s n t m)
             (some T) st2 (connectedTargets st2 node_id) ∧
         st2.nodeCustom node_id = some (some T) ∧
         StructuralFrame st st2) ∧
    (∀ (st : FullGraphState) (node_id : NodeId) (n : Node),
       st.state.graph.findNode node_id = some n →
       ∀ (m : NodeId) (nm : String),
         (m, nm) ∈ connectedTargets st node_id ↔
           ∃ cname, (cname = "out" ∨ cname = "retval" ∨ cname = "value") ∧
           ∃ oid, n.get_output cname = some oid ∧
           ∃ iid, (iid, oid) ∈ st.state.graph.connections ∧
           ∃ ip, st.state.graph.getInputParam iid = some ip ∧ ip.node = m ∧
           ∃ tn, st.state.graph.findNode m = some tn ∧
             (tn.inputs.find? (fun q => q.2 == iid)).map (fun q => q.1) =
               some nm) ∧
    (∀ (fuel : Nat) (st : FullGraphState) (node_id : NodeId)
       (stype : Option PulseValueType) (sname : Option String)
       (st' : FullGraphState),
       update_polymorphic_output_types fuel st node_id stype sname = .ok st' →
       StructuralFrame st st') :=
  ⟨fun fuel st node_id stype sname nd T st1 hfind hpoly hres =>
      update_poly_resolution_step fuel st node_id stype sname nd T st1
        hfind hpoly hres,
    fun st node_id n hfind m nm =>
      connectedTargets_mem_iff st node_id n hfind m nm,
    fun fuel st node_id stype sname st' h =>
      update_poly_structural_frame fuel st node_id stype sname st' h⟩

/-- C1 witness: on the three-node chain with `v : Array<Int>`, the
load-variable node's resolution step stores `Array<Int>` and hands over to
the propagation loop; the mirror node's pair `(1, "array")` is in the
recursion-target list via the `value` output; and the full run satisfies
the structural frame. -/
theorem C1_witness :
    (∃ st2 : FullGraphState,
       update_polymorphic_output_types 3 (stC1chain (.PVAL_INT none)) 0
           none none =
         propagate_to_connected
           (fun s n t m => update_polymorphic_output_types 2 s n t m)
           (some (.PVAL_ARRAY (.PVAL_INT none))) st2 (connectedTargets st2 0) ∧
       st2.nodeCustom 0 = some (some (.PVAL_ARRAY (.PVAL_INT none))) ∧
       StructuralFrame (stC1chain (.PVAL_INT none)) st2) ∧
    ((1, "array") ∈ connectedTargets (stC1chain (.PVAL_INT none)) 0) ∧
    (∃ st' : FullGraphState,
       update_polymorphic_output_types 3 (stC1chain (.PVAL_INT none)) 0
           none none = .ok st' ∧
       StructuralFrame (stC1chain (.PVAL_INT none)) st') := by
  refine ⟨?_, ?_, ?_⟩
  · exact C1_propagation_stores_and_recurses.1 2 (stC1chain (.PVAL_INT none))
      0 none none c1GetVarNode (.PVAL_ARRAY (.PVAL_INT none))
      (stC1chain (.PVAL_INT none)) rfl rfl rfl
  · exact (C1_propagation_stores_and_recurses.2.1
        (stC1chain (.PVAL_INT none)) 0 c1GetVarNode rfl 1 "array").mpr
      ⟨"value", Or.inr (Or.inr rfl), 1, rfl, 2, by decide,
        ⟨1, .Array, .Array, .ConnectionOnly⟩, rfl, rfl, c1MirrorNode, rfl, rfl⟩
  · exact ⟨_, rfl, C1_propagation_stores_and_recurses.2.2 3
      (stC1chain (.PVAL_INT none)) 0 none none _ rfl⟩

/-! ### C5 -/

theorem foldl_updateInputParam_const (l : List InputId) (g : Graph)
    (a : PulseDataType) (v : PulseGraphValueType) :
    l.foldl (fun g iid =>
        g.updateInputParam iid (fun p => { p with typ := a, value := v })) g =
      { g with input_params := g.input_params.map (fun q =>
          if q.1 ∈ l then (q.1, { q.2 with typ := a, value := v }) else q) } := by
  induction l generalizing g with
  | nil =>
    simp
  | cons x xs ih =>
    rw [List.foldl_cons, ih]
    simp only [Graph.updateInputParam]
    congr 1
    rw [List.map_map]
    apply List.map_congr_left
    intro q _
    by_cases hx : q.1 = x <;> by_cases hxs : q.1 ∈ xs <;>
      simp [hx, hxs, List.mem_cons]

/-- C5 (amended): retyping a variable-arity array-literal node rewrites
every user-added element input port in place — same identity, same list
position, new category and **new default value regardless of whether the
category changed** — and touches nothing else: no port is deleted or
re-added, the node's port lists, the output parameters and the connections
are untouched. -/
theorem C5_new_array_retype_in_place (st : FullGraphState) (node_id : NodeId)
    (nd : Node) (name : String) (T : PulseValueType)
    (hfind : st.state.graph.findNode node_id = some nd)
    (htempl : nd.template = .NewArray) :
    update_node_inputs_outputs_types st node_id name (some T) =
      .ok { st with state := { st.state with
        graph := { st.state.graph with
          input_params := st.state.graph.input_params.map (fun q =>
            if q.1 ∈ nd.added_inputs then
              (q.1, { q.2 with typ := (pulse_value_type_to_node_types T).1
                               value := (pulse_value_type_to_node_types T).2 })
            else q) } } } := by
  simp only [update_node_inputs_outputs_types, hfind, htempl]
  rw [foldl_updateInputParam_const]
  rfl

/-- An array-literal node with one user-added element port (id 1). -/
def naNode : Node :=
  { template := .NewArray, inputs := [("arrayType", 0), ("element0", 1)]
    outputs := [("out", 2)], added_inputs := [1] }

/-- The array-literal node with declared element type int and a user-entered
scalar value 5 in the element port. -/
def stNA : FullGraphState :=
  { state :=
      { graph :=
          { nodes := [(0, naNode)]
            input_params := [(0, ⟨0, .Typ, .Typ (.PVAL_INT none), .ConstantOnly⟩),
                             (1, ⟨0, .Scalar, .Scalar ⟨5⟩, .ConnectionOrConstant⟩)]
            output_params := [(2, ⟨0, .Array⟩)]
            connections := [], next_id := 3 }
        node_sizes := [] }
    user_state := { vars := [], bindings := noBindings, graph_domain := "d", graph_subtype := "s" } }

/-- C5 counterexample: changing the declared element type from int to
float keeps the element port's category (`Scalar`) unchanged, yet the
user-entered value 5 is reset to the new default 0 — the claim requires
user-entered values to be preserved when the category is unchanged. -/
theorem C5_counterexample :
    stNA.state.graph.getInputParam 1 =
      some ⟨0, .Scalar, .Scalar ⟨5⟩, .ConnectionOrConstant⟩ ∧
    (update_node_inputs_outputs_types stNA 0 "arrayType"
        (some (.PVAL_FLOAT none))).toOption.map
      (fun st' => st'.state.graph.getInputParam 1) =
      some (some ⟨0, .Scalar, .Scalar ⟨0⟩, .ConnectionOrConstant⟩) :=
  ⟨rfl, rfl⟩

theorem C5_witness :
    stNA.state.graph.findNode 0 = some naNode ∧
    naNode.template = .NewArray ∧
    update_node_inputs_outputs_types stNA 0 "arrayType"
        (some (.PVAL_FLOAT none)) =
      .ok { stNA with state := { stNA.state with
        graph := { stNA.state.graph with
          input_params := stNA.state.graph.input_params.map (fun q =>
            if q.1 ∈ naNode.added_inputs then
              (q.1, { q.2 with
                typ := (pulse_value_type_to_node_types (.PVAL_FLOAT none)).1
                value := (pulse_value_type_to_node_types (.PVAL_FLOAT none)).2 })
            else q) } } } :=
  ⟨rfl, rfl,
    C5_new_array_retype_in_place stNA 0 naNode "arrayType"
      (.PVAL_FLOAT none) rfl rfl⟩

/-! ### C4 -/

/-- Appending a run of input ports: the exact graph produced by folding
`add_input_param` over a list, with the fresh identities enumerated from
the starting `next_id`. -/
theorem foldl_add_input_param_spec {α : Type} (key : α → NodeId)
    (nm : α → String) (ft : α → PulseDataType) (fv : α → PulseGraphValueType)
    (fk : α → InputParamKind) (nid : NodeId) (ps : List α)
    (hkey : ∀ x ∈ ps, key x = nid) : ∀ g : Graph,
    ps.foldl (fun g x =>
        g.add_input_param (key x) (nm x) (ft x) (fv x) (fk x)) g =
      { nodes := g.nodes.map (fun p =>
          if p.1 == nid then
            (p.1, { p.2 with inputs := p.2.inputs ++
              (List.enumFrom g.next_id ps).map (fun ia => (nm ia.2, ia.1)) })
          else p)
        input_params := g.input_params ++
          (List.enumFrom g.next_id ps).map
            (fun ia => (ia.1, ⟨nid, ft ia.2, fv ia.2, fk ia.2⟩))
        output_params := g.output_params
        connections := g.connections
        next_id := g.next_id + ps.length } := by
  induction ps with
  | nil =>
    intro g
    cases g with
    | mk ns ip op co ni =>
      simp only [List.foldl_nil, List.enumFrom, List.map_nil,
        List.append_nil, List.length_nil, Nat.add_zero]
      congr 1
      rw [show (ns.map (fun p => if p.1 == nid then
          (p.1, { p.2 with inputs := p.2.inputs }) else p)) = ns.map id by
        apply List.map_congr_left
        intro p _
        by_cases h : p.1 == nid <;> simp [h]]
      simp
  | cons x xs ih =>
    intro g
    rw [List.foldl_cons]
    rw [ih (fun y hy => hkey y (List.mem_cons_of_mem x hy))]
    rw [hkey x (List.mem_cons_self x xs)]
    simp only [Graph.add_input_param]
    congr 1
    · rw [List.map_map]
      apply List.map_congr_left
      intro p _
      by_cases h : (p.1 == nid) = true
      · simp only [Function.comp, if_pos h]
        simp [List.enumFrom_cons, List.append_assoc]
      · have h' : ¬ p.1 = nid := by simpa using h
        simp [h']
    · simp [List.enumFrom_cons, List.append_assoc]
    · simp [List.length_cons]
      omega

/-- Appending a run of output ports: the exact graph produced by folding
`add_output_param` over a list. -/
theorem foldl_add_output_param_spec {α : Type} (key : α → NodeId)
    (nm : α → String) (ft : α → PulseDataType) (nid : NodeId) (ps : List α)
    (hkey : ∀ x ∈ ps, key x = nid) : ∀ g : Graph,
    ps.foldl (fun g x => g.add_output_param (key x) (nm x) (ft x)) g =
      { nodes := g.nodes.map (fun p =>
          if p.1 == nid then
            (p.1, { p.2 with outputs := p.2.outputs ++
              (List.enumFrom g.next_id ps).map (fun ia => (nm ia.2, ia.1)) })
          else p)
        input_params := g.input_params
        output_params := g.output_params ++
          (List.enumFrom g.next_id ps).map (fun ia => (ia.1, ⟨nid, ft ia.2⟩))
        connections := g.connections
        next_id := g.next_id + ps.length } := by
  induction ps with
  | nil =>
    intro g
    cases g with
    | mk ns ip op co ni =>
      simp only [List.foldl_nil, List.enumFrom, List.map_nil,
        List.append_nil, List.length_nil, Nat.add_zero]
      congr 1
      rw [show (ns.map (fun p => if p.1 == nid then
          (p.1, { p.2 with outputs := p.2.outputs }) else p)) = ns.map id by
        apply List.map_congr_left
        intro p _
        by_cases h : p.1 == nid <;> simp [h]]
      simp
  | cons x xs ih =>
    intro g
    rw [List.foldl_cons]
    rw [ih (fun y hy => hkey y (List.mem_cons_of_mem x hy))]
    rw [hkey x (List.mem_cons_self x xs)]
    simp only [Graph.add_output_param]
    congr 1
    · rw [List.map_map]
      apply List.map_congr_left
      intro p _
      by_cases h : (p.1 == nid) = true
      · simp only [Function.comp, if_pos h]
        simp [List.enumFrom_cons, List.append_assoc]
      · have h' : ¬ p.1 = nid := by simpa using h
        simp [h']
    · simp [List.enumFrom_cons, List.append_assoc]
    · simp [List.length_cons]
      omega

/-- A binding-bound node before a rebuild: the fixed `binding` selector
(port 10), one stale input (port 11) and one stale output (port 12). -/
def lbNode : Node :=
  { template := .LibraryBindingAssigned 7
    inputs := [("binding", 10), ("stale", 11)], outputs := [("old", 12)] }

/-- The state around `lbNode`. -/
def stLB : FullGraphState :=
  { state :=
      { graph :=
          { nodes := [(0, lbNode)]
            input_params := [(10, ⟨0, .LibraryBindingChoice, .LibraryBindingChoice 7, .ConstantOnly⟩),
                             (11, ⟨0, .Scalar, .Scalar ⟨1⟩, .ConnectionOrConstant⟩)]
            output_params := [(12, ⟨0, .String⟩)]
            connections := [], next_id := 13 }
        node_sizes := [] }
    user_state := { vars := [], bindings := noBindings, graph_domain := "d", graph_subtype := "s" } }

/-- The rebuilt state for a statement-like (`Action`) binding: the output
control port `outAction` (id 13) leads the outputs, the input control port
`ActionIn` (id 14) follows the binding selector, then one port per declared
parameter, ids enumerated from 15. -/
def lbExpectedAction (ps qs : List ParamInfo) : FullGraphState :=
  { state :=
      { graph :=
          { nodes := [(0,
              { template := .LibraryBindingAssigned 7
                inputs := [("binding", 10), ("ActionIn", 14)] ++
                  (List.enumFrom 15 ps).map (fun ia => (ia.2.name, ia.1))
                outputs := [("outAction", 13)] ++
                  (List.enumFrom (15 + ps.length) qs).map (fun ia => (ia.2.name, ia.1)) })]
            input_params := [(10, ⟨0, .LibraryBindingChoice, .LibraryBindingChoice 7, .ConstantOnly⟩),
                (14, ⟨0, .Action, .Action, .ConnectionOrConstant⟩)] ++
              (List.enumFrom 15 ps).map (fun ia => (ia.1,
                ⟨0, (pulse_value_type_to_node_types ia.2.pulsetype).1,
                  (pulse_value_type_to_node_types ia.2.pulsetype).2,
                  get_preffered_inputparamkind_from_type ia.2.pulsetype⟩))
            output_params := [(13, ⟨0, .Action⟩)] ++
              (List.enumFrom (15 + ps.length) qs).map (fun ia => (ia.1,
                ⟨0, (pulse_value_type_to_node_types ia.2.pulsetype).1⟩))
            connections := []
            next_id := 15 + ps.length + qs.length }
        node_sizes := [] }
    user_state := stLB.user_state }

/-- The rebuilt state for a value-like binding: no control ports, one port
per declared parameter, ids enumerated from 13. -/
def lbExpectedValue (ps qs : List ParamInfo) : FullGraphState :=
  { state :=
      { graph :=
          { nodes := [(0,
              { template := .LibraryBindingAssigned 7
                inputs := [("binding", 10)] ++
                  (List.enumFrom 13 ps).map (fun ia => (ia.2.name, ia.1))
                outputs :=
                  (List.enumFrom (13 + ps.length) qs).map (fun ia => (ia.2.name, ia.1)) })]
            input_params := [(10, ⟨0, .LibraryBindingChoice, .LibraryBindingChoice 7, .ConstantOnly⟩)] ++
              (List.enumFrom 13 ps).map (fun ia => (ia.1,
                ⟨0, (pulse_value_type_to_node_types ia.2.pulsetype).1,
                  (pulse_value_type_to_node_types ia.2.pulsetype).2,
                  get_preffered_inputparamkind_from_type ia.2.pulsetype⟩))
            output_params :=
              (List.enumFrom (13 + ps.length) qs).map (fun ia => (ia.1,
                ⟨0, (pulse_value_type_to_node_types ia.2.pulsetype).1⟩))
            connections := []
            next_id := 13 + ps.length + qs.length }
        node_sizes := [] }
    user_state := stLB.user_state }

/-- C4 (amended): rebuilding the ports of a binding-bound node deletes all
output ports and all input ports except the fixed binding selector; if and
only if the binding kind is statement-like (`Action`), it synthesizes one
output control port and one input control port, both placed **before** the
parameter ports (the output control port leads the output list; the input
control port comes right after the binding selector); then one input port
per declared input parameter (category and default from the value-type
catalog, connectivity from the per-type preference table) and one output
port per declared output parameter are appended, in catalog declaration
order. -/
theorem C4_rebuild_binding_ports (binding : FunctionBinding)
    (ps qs : List ParamInfo)
    (hin : binding.inparams = some ps) (hout : binding.outparams = some qs) :
    (binding.typ = .Action →
      update_library_binding_params stLB 0 binding =
        .ok (lbExpectedAction ps qs))
    ∧
    (binding.typ = .Value →
      update_library_binding_params stLB 0 binding =
        .ok (lbExpectedValue ps qs)) := by
  constructor <;> intro htyp <;>
  · simp [update_library_binding_params, stLB, lbNode, Graph.findNode,
      Node.get_input, Graph.remove_output_param, Graph.remove_input_param,
      htyp, hin, hout]
    rw [foldl_add_input_param_spec (fun _ : ParamInfo => (0 : NodeId))
      (fun p => p.name) (fun p => (pulse_value_type_to_node_types p.pulsetype).1)
      (fun p => (pulse_value_type_to_node_types p.pulsetype).2)
      (fun p => get_preffered_inputparamkind_from_type p.pulsetype)
      0 ps (fun _ _ => rfl)]
    rw [foldl_add_output_param_spec (fun _ : ParamInfo => (0 : NodeId))
      (fun p => p.name) (fun p => (pulse_value_type_to_node_types p.pulsetype).1)
      0 qs (fun _ _ => rfl)]
    simp [lbExpectedAction, lbExpectedValue, Graph.add_output_param,
      Graph.add_input_param, List.enumFrom, List.append_assoc, stLB]

/-- A statement-like binding with no inputs and one declared output. -/
def bindingCE : FunctionBinding :=
  { id := 7, typ := .Action, displayname := "fn", libname := "fn"
    description := none, inparams := some []
    outparams := some [{ name := "retval", typ := ""
                         pulsetype := .PVAL_STRING none
                         polymorphic_arg := none }]
    polymorphic_return := none }

/-- C4 counterexample: for a statement-like binding with one declared
output parameter, the rebuilt output list is `[outAction, retval]` — the
synthesized output control port comes **first**, not trailing as the claim
states. -/
theorem C4_counterexample :
    (update_library_binding_params stLB 0 bindingCE).toOption.map
      (fun st' => (st'.state.graph.findNode 0).map
        (fun n => n.outputs.map Prod.fst)) =
      some (some ["outAction", "retval"]) := rfl

/-- A statement-like binding with two declared inputs and one output. -/
def bindingW : FunctionBinding :=
  { id := 7, typ := .Action, displayname := "fn", libname := "fn"
    description := none
    inparams := some [{ name := "a", typ := "", pulsetype := .PVAL_INT none
                        polymorphic_arg := none },
                      { name := "b", typ := "", pulsetype := .PVAL_EHANDLE none
                        polymorphic_arg := none }]
    outparams := some [{ name := "retval", typ := ""
                         pulsetype := .PVAL_STRING none
                         polymorphic_arg := none }]
    polymorphic_return := none }

theorem C4_witness :
    bindingW.inparams = some [{ name := "a", typ := "", pulsetype := .PVAL_INT none
                                polymorphic_arg := none },
                              { name := "b", typ := "", pulsetype := .PVAL_EHANDLE none
                                polymorphic_arg := none }] ∧
    bindingW.typ = .Action ∧
    update_library_binding_params stLB 0 bindingW =
      .ok (lbExpectedAction
        [{ name := "a", typ := "", pulsetype := .PVAL_INT none
           polymorphic_arg := none },
         { name := "b", typ := "", pulsetype := .PVAL_EHANDLE none
           polymorphic_arg := none }]
        [{ name := "retval", typ := "", pulsetype := .PVAL_STRING none
           polymorphic_arg := none }]) :=
  ⟨rfl, rfl,
    (C4_rebuild_binding_ports bindingW
      [{ name := "a", typ := "", pulsetype := .PVAL_INT none
         polymorphic_arg := none },
       { name := "b", typ := "", pulsetype := .PVAL_EHANDLE none
         polymorphic_arg := none }]
      [{ name := "retval", typ := "", pulsetype := .PVAL_STRING none
         polymorphic_arg := none }] rfl rfl).1 rfl⟩

/-! ### C6 -/

/-- A persisted binding-bound node with the `binding` selector, one
matching input port `x` (connected), and an output. -/
def c6Node : Node :=
  { template := .LibraryBindingAssigned 7
    inputs := [("binding", 10), ("x", 11)], outputs := [("out", 12)] }

/-- A catalog entry declaring three input parameters. -/
def bindingC6 (p1 p2 p3 : ParamInfo) : FunctionBinding :=
  { id := 7, typ := .Value, displayname := "fn", libname := "fn"
    description := none, inparams := some [p1, p2, p3], outparams := none
    polymorphic_return := none }

/-- The loaded state around `c6Node`: the lone non-marker port 11 is
connected (to output 12) and the catalog declares three parameters. -/
def stC6 (p1 p2 p3 : ParamInfo) : FullGraphState :=
  { state :=
      { graph :=
          { nodes := [(0, c6Node)]
            input_params := [(10, ⟨0, .LibraryBindingChoice, .LibraryBindingChoice 7, .ConstantOnly⟩),
                             (11, ⟨0, .Scalar, .Scalar ⟨2⟩, .ConnectionOrConstant⟩)]
            output_params := [(12, ⟨0, .Any⟩)]
            connections := [(11, 12)], next_id := 13 }
        node_sizes := [(0, ⟨1, 1⟩)] }
    user_state := { vars := [], bindings := ⟨[bindingC6 p1 p2 p3], [], []⟩
                    graph_domain := "d", graph_subtype := "s" } }

/-- The migrated state: the non-marker port keeps its identity, value and
connection (renamed to the first declared parameter); the two missing
parameters are appended as new ports 13 and 14, named and typed per the
catalog; nothing is removed or reordered. -/
def c6Expected (p1 p2 p3 : ParamInfo) : FullGraphState :=
  { state :=
      { graph :=
          { nodes := [(0,
              { template := .LibraryBindingAssigned 7
                inputs := [("binding", 10), (p1.name, 11), (p2.name, 13), (p3.name, 14)]
                outputs := [("out", 12)] })]
            input_params := [(10, ⟨0, .LibraryBindingChoice, .LibraryBindingChoice 7, .ConstantOnly⟩),
                (11, ⟨0, .Scalar, .Scalar ⟨2⟩, .ConnectionOrConstant⟩),
                (13, ⟨0, (pulse_value_type_to_node_types p2.pulsetype).1,
                  (pulse_value_type_to_node_types p2.pulsetype).2,
                  get_preffered_inputparamkind_from_type p2.pulsetype⟩),
                (14, ⟨0, (pulse_value_type_to_node_types p3.pulsetype).1,
                  (pulse_value_type_to_node_types p3.pulsetype).2,
                  get_preffered_inputparamkind_from_type p3.pulsetype⟩)]
            output_params := [(12, ⟨0, .Any⟩)]
            connections := [(11, 12)], next_id := 15 }
        node_sizes := [(0, ⟨1, 1⟩)] }
    user_state := { vars := [], bindings := ⟨[bindingC6 p1 p2 p3], [], []⟩
                    graph_domain := "d", graph_subtype := "s" } }

/-- C6: migrating a binding-bound node whose catalog entry declares 3 input
parameters while only 1 matching (non-marker) input port is present adds
exactly the 2 missing parameters as new input ports, named and typed per
the catalog, appended after the existing inputs; no port is removed, the
existing order is kept, and the existing connection is untouched. -/
theorem C6_migration_appends_missing_params (p1 p2 p3 : ParamInfo) :
    verify_compat (stC6 p1 p2 p3) = c6Expected p1 p2 p3 := rfl

/-! ### C7 -/

/-- A legacy entity-fire node lacking the entity-handle input. -/
def efNode : Node :=
  { template := .EntFire, inputs := [("targetName", 0)], outputs := [] }

/-- A freshly loaded legacy state: one entity-fire node, no size records,
empty graph domain and subtype. -/
def stEF : FullGraphState :=
  { state :=
      { graph :=
          { nodes := [(0, efNode)]
            input_params := [(0, ⟨0, .String, .String "", .ConnectionOrConstant⟩)]
            output_params := [], connections := [], next_id := 1 }
        node_sizes := [] }
    user_state := { vars := [], bindings := noBindings, graph_domain := "", graph_subtype := "" } }

/-- The migrated state: exactly one additional input port named
`entityHandle`, category `EHandle`, connection-only; sizes and the default
domain/subtype filled in. -/
def stEFmigrated : FullGraphState :=
  { state :=
      { graph :=
          { nodes := [(0,
              { template := .EntFire
                inputs := [("targetName", 0), ("entityHandle", 1)]
                outputs := [] })]
            input_params := [(0, ⟨0, .String, .String "", .ConnectionOrConstant⟩),
                             (1, ⟨0, .EHandle, .EHandle, .ConnectionOnly⟩)]
            output_params := [], connections := [], next_id := 2 }
        node_sizes := [(0, ⟨200, 200⟩)] }
    user_state := { vars := [], bindings := noBindings
                    graph_domain := "ServerEntity"
                    graph_subtype := "PVAL_EHANDLE:point_pulse" } }

/-- C7: migrating a graph with a legacy entity-fire node that lacks the
entity-handle input yields exactly one additional input port named
`entityHandle` with category `EHandle` and connection-only mode, and
running the migration a second time changes nothing. -/
theorem C7_entfire_migration_idempotent :
    verify_compat stEF = stEFmigrated ∧
    verify_compat (verify_compat stEF) = verify_compat stEF := ⟨rfl, rfl⟩

theorem C10_witness :
    stOrphan.state.graph.findNode 0 = some orphanBindingNode ∧
    orphanBindingNode.template = .LibraryBindingAssigned 42 ∧
    stOrphan.user_state.bindings.find_function_by_id 42 = none ∧
    update_polymorphic_output_types 1 stOrphan 0
      (some (.PVAL_STRING none)) (some "x") = .ok stOrphan :=
  ⟨rfl, rfl, rfl,
    C10_missing_binding_node_is_sink 0 stOrphan 0 (some (.PVAL_STRING none))
      (some "x") orphanBindingNode 42 rfl rfl rfl⟩

end VPulse
